import Mathlib

/-!
# A verification development for `server.js`

`server.js` is an Express gateway in front of the Spotify Web API.  It owns one
process-wide `spotifyApi` client (client configuration plus an access token and a
refresh token), one background job (`initSpotifyToken`) and six routes.

The embedding is shallow and sequential:

* the process-wide client is an explicit `ApiClient` value threaded through every handler;
* the methods of the `spotify-web-api-node` client, which are not part of this repository,
  are a parameter `Api`: each network method maps the client as it is at the moment of the
  call (and the call's arguments) to the outcome of the awaited promise, `Except.ok body`
  when it resolves and `Except.error err` when it rejects;
* the middleware registered with `app.use` ahead of the routes (`cors`, `express.json`,
  `express.urlencoded`, `express.static`) is library code as well and is a parameter
  `Middleware`: for each request it tells whether one of them ends the request or all of
  them pass it on to the route;
* every handler returns an `Outcome`: the client afterwards, the upstream calls it issued in
  order, what it wrote to the console, and the response it sent, if any;
* one handler runs from start to finish without interleaving with another one.

Values read from the bodies of upstream responses are typed records holding the fields the
program reads, as the Spotify Web API documents them.
-/

namespace Server

/-! ## JavaScript values -/

/-- The value a rejected promise or a `throw` carries: an error with its message and, when it
has one, its stack trace. -/
structure JsError where
  message : String
  stack : Option String
  deriving DecidableEq, Repr

/-- A value found under a key of `req.query`, as the query parser of Express 4 (`qs` with
`allowPrototypes`) builds it: a string, an array (the key was repeated or indexed) or an
object (bracket syntax, any key allowed), nested at will.  An absent key is `none` at
lookup. -/
inductive QVal where
  | str (s : String)
  | arr (items : List QVal)
  | obj (fields : List (String × QVal))
  deriving Repr

mutual
/-- Equality of query values is decidable. -/
def QVal.decEq : (a b : QVal) → Decidable (a = b)
  | QVal.str s, QVal.str t =>
    if h : s = t then isTrue (by rw [h]) else isFalse (by intro e; cases e; exact h rfl)
  | QVal.arr xs, QVal.arr ys =>
    match QVal.decEqItems xs ys with
    | isTrue h => isTrue (by rw [h])
    | isFalse h => isFalse (by intro e; cases e; exact h rfl)
  | QVal.obj xs, QVal.obj ys =>
    match QVal.decEqFields xs ys with
    | isTrue h => isTrue (by rw [h])
    | isFalse h => isFalse (by intro e; cases e; exact h rfl)
  | QVal.str _, QVal.arr _ => isFalse (by intro e; cases e)
  | QVal.str _, QVal.obj _ => isFalse (by intro e; cases e)
  | QVal.arr _, QVal.str _ => isFalse (by intro e; cases e)
  | QVal.arr _, QVal.obj _ => isFalse (by intro e; cases e)
  | QVal.obj _, QVal.str _ => isFalse (by intro e; cases e)
  | QVal.obj _, QVal.arr _ => isFalse (by intro e; cases e)
/-- Equality of lists of query values is decidable. -/
def QVal.decEqItems : (a b : List QVal) → Decidable (a = b)
  | [], [] => isTrue rfl
  | [], _ :: _ => isFalse (by intro e; cases e)
  | _ :: _, [] => isFalse (by intro e; cases e)
  | x :: xs, y :: ys =>
    match QVal.decEq x y, QVal.decEqItems xs ys with
    | isTrue h₁, isTrue h₂ => isTrue (by rw [h₁, h₂])
    | isFalse h, _ => isFalse (by intro e; cases e; exact h rfl)
    | _, isFalse h => isFalse (by intro e; cases e; exact h rfl)
/-- Equality of lists of keyed query values is decidable. -/
def QVal.decEqFields : (a b : List (String × QVal)) → Decidable (a = b)
  | [], [] => isTrue rfl
  | [], _ :: _ => isFalse (by intro e; cases e)
  | _ :: _, [] => isFalse (by intro e; cases e)
  | (k, x) :: xs, (l, y) :: ys =>
    if hk : k = l then
      match QVal.decEq x y, QVal.decEqFields xs ys with
      | isTrue h₁, isTrue h₂ => isTrue (by rw [hk, h₁, h₂])
      | isFalse h, _ => isFalse (by intro e; cases e; exact h rfl)
      | _, isFalse h => isFalse (by intro e; cases e; exact h rfl)
    else isFalse (by intro e; cases e; exact hk rfl)
end

instance : DecidableEq QVal := QVal.decEq

/-- JavaScript truthiness of a possibly undefined query value: `undefined` and the empty
string are falsy, every other string and every array or object is truthy. -/
def truthy : Option QVal → Bool
  | none => false
  | some (QVal.str s) => s ≠ ""
  | some (QVal.arr _) => true
  | some (QVal.obj _) => true

/-- The `TypeError` thrown when an object cannot be converted to a primitive value. -/
def typeError : JsError :=
  { message := "Cannot convert object to primitive value"
    stack := some "TypeError: Cannot convert object to primitive value" }

mutual
/-- The abstract operation `ToString` on a query value.  A string is itself.  An array is
the texts of its items joined by commas (`Array.prototype.join`).  An object is
`[object Object]` (`Object.prototype.toString`), unless it has a key `toString` of its own:
the value under that key is not callable, neither is the object a primitive, and the
conversion throws a `TypeError`. -/
def QVal.toStr : QVal → Except JsError String
  | QVal.str s => Except.ok s
  | QVal.arr items =>
    match QVal.toStrs items with
    | Except.ok texts => Except.ok (",".intercalate texts)
    | Except.error err => Except.error err
  | QVal.obj fields =>
    if fields.any (fun field => field.1 == "toString") then Except.error typeError
    else Except.ok "[object Object]"
/-- The texts of the items of an array, up to the first one whose conversion throws. -/
def QVal.toStrs : List QVal → Except JsError (List String)
  | [] => Except.ok []
  | v :: vs =>
    match QVal.toStr v with
    | Except.error err => Except.error err
    | Except.ok text =>
      match QVal.toStrs vs with
      | Except.ok texts => Except.ok (text :: texts)
      | Except.error err => Except.error err
end

/-- The abstract operation `ToString` on a possibly undefined query value. -/
def jsToString : Option QVal → Except JsError String
  | none => Except.ok "undefined"
  | some v => v.toStr

/-- A Number as `parseInt` can return it: `NaN`, an integer-valued finite double, or an
infinity.  `fin 0` stands for both zeros (both are falsy and both serialise as `0`). -/
inductive JsNum where
  | nan
  | fin (i : Int)
  | inf (negative : Bool)
  deriving DecidableEq, Repr

/-- What `JSON.stringify` writes for a Number: the number, or `null` (here `none`) for `NaN`
and the infinities. -/
def JsNum.toJSON : JsNum → Option Int
  | JsNum.fin i => some i
  | JsNum.nan => none
  | JsNum.inf _ => none

/-- JavaScript truthiness of a Number: `NaN` and zero are falsy. -/
def JsNum.truthy : JsNum → Bool
  | JsNum.nan => false
  | JsNum.fin i => i ≠ 0
  | JsNum.inf _ => true

/-- The expression `n || d` on Numbers. -/
def JsNum.orElse (n d : JsNum) : JsNum := if n.truthy then n else d

/-- The number of binary digits to drop from `m` so that 53 remain, searched with `fuel`
halvings. -/
def shiftFor : Nat → Nat → Nat
  | 0, _ => 0
  | fuel + 1, m => if m < 2 ^ 53 then 0 else 1 + shiftFor fuel (m / 2)

/-- The double nearest to the natural number `m` (ties to even), or `none` when that is
`Infinity`.  Every natural number below `2 ^ 53` is a double; above, `m` is cut to its 53
leading binary digits `q`, rounded on the `e` digits dropped.  The largest double is
`(2 ^ 53 - 1) * 2 ^ 971`. -/
def roundToDouble (m : Nat) : Option Nat :=
  if m < 2 ^ 53 then some m
  else
    let e := shiftFor 972 m
    let q := m / 2 ^ e
    let r := m % 2 ^ e
    let half := 2 ^ (e - 1)
    let q1 := if half < r ∨ (r = half ∧ q % 2 = 1) then q + 1 else q
    if 971 < e ∨ (e = 971 ∧ q1 = 2 ^ 53) then none else some (q1 * 2 ^ e)

/-- The Number value of `sign × m`. -/
def toNumber (negative : Bool) (m : Nat) : JsNum :=
  match roundToDouble m with
  | some v => JsNum.fin (if negative then - (v : Int) else (v : Int))
  | none => JsNum.inf negative

/-- The code points ECMAScript treats as white space or line terminators. -/
def isWhiteSpace (c : Char) : Bool :=
  c.toNat ∈ [0x09, 0x0A, 0x0B, 0x0C, 0x0D, 0x20, 0xA0, 0x1680, 0x2000, 0x2001, 0x2002,
    0x2003, 0x2004, 0x2005, 0x2006, 0x2007, 0x2008, 0x2009, 0x200A, 0x2028, 0x2029,
    0x202F, 0x205F, 0x3000, 0xFEFF]

/-- The value of a character as a digit in some radix up to 36. -/
def digitValue (c : Char) : Option Nat :=
  if c.isDigit then some (c.toNat - '0'.toNat)
  else if c.isLower then some (c.toNat - 'a'.toNat + 10)
  else if c.isUpper then some (c.toNat - 'A'.toNat + 10)
  else none

/-- The longest prefix of radix-`radix` digits, as digit values. -/
def takeDigits (radix : Nat) : List Char → List Nat
  | [] => []
  | c :: cs =>
    match digitValue c with
    | some d => if d < radix then d :: takeDigits radix cs else []
    | none => []

/-- The integer a list of digit values denotes, most significant digit first. -/
def digitsValue (radix : Nat) (ds : List Nat) : Nat :=
  ds.foldl (fun acc d => acc * radix + d) 0

/-- An optional sign in front of the numeral: whether it is a minus, and the rest. -/
def splitSign : List Char → Bool × List Char
  | '-' :: rest => (true, rest)
  | '+' :: rest => (false, rest)
  | cs => (false, cs)

/-- An optional `0x` or `0X` in front of the digits: the radix, and the rest. -/
def splitRadix : List Char → Nat × List Char
  | '0' :: 'x' :: rest => (16, rest)
  | '0' :: 'X' :: rest => (16, rest)
  | cs => (10, cs)

/-- The function `parseInt(string)` called without a radix, on the characters of
`ToString(string)`: leading white space is skipped, a sign and a hexadecimal prefix are
read, the longest run of digits is the numeral, and the result is `NaN` when that run is
empty.  The numeral is converted exactly and then rounded to a double, as V8 does
(ECMAScript requires it up to 20 significant digits). -/
def parseIntChars (input : List Char) : JsNum :=
  let signed := splitSign (input.dropWhile isWhiteSpace)
  let based := splitRadix signed.2
  let z := takeDigits based.1 based.2
  if z = [] then JsNum.nan else toNumber signed.1 (digitsValue based.1 z)

/-- The call `parseInt(v)` for a possibly undefined query value `v`: it throws when the
conversion of `v` to a string does. -/
def parseInt (v : Option QVal) : Except JsError JsNum :=
  match jsToString v with
  | Except.ok text => Except.ok (parseIntChars text.data)
  | Except.error err => Except.error err

/-- A template-literal substitution of a possibly undefined string. -/
def templateString : Option String → String
  | none => "undefined"
  | some s => s

/-! ## The shared client and the upstream API -/

/-- The options of `new SpotifyWebApi(...)`, read once from the environment; each variable
may be unset. -/
structure ClientConfig where
  clientId : Option String
  clientSecret : Option String
  redirectUri : Option String
  deriving DecidableEq, Repr

/-- The process-wide `spotifyApi` object: its configuration and the two token fields, each
undefined until it is first set. -/
structure ApiClient where
  config : ClientConfig
  accessToken : Option QVal
  refreshToken : Option QVal
  deriving DecidableEq, Repr

/-- The method `spotifyApi.setAccessToken(t)`. -/
def ApiClient.setAccessToken (c : ApiClient) (t : QVal) : ApiClient :=
  { c with accessToken := some t }

/-- The method `spotifyApi.setRefreshToken(t)`. -/
def ApiClient.setRefreshToken (c : ApiClient) (t : QVal) : ApiClient :=
  { c with refreshToken := some t }

/-- The client as `new SpotifyWebApi(...)` leaves it: no token yet. -/
def newClient (cfg : ClientConfig) : ApiClient :=
  { config := cfg, accessToken := none, refreshToken := none }

/-- The fields read from the body of a client-credentials grant. -/
structure ClientGrant where
  access_token : String
  deriving DecidableEq, Repr

/-- The fields read from the body of an authorization-code grant. -/
structure CodeGrant where
  access_token : String
  refresh_token : String
  deriving DecidableEq, Repr

/-- An image object. -/
structure Image where
  url : String
  deriving DecidableEq, Repr

/-- The `followers` object of a user. -/
structure Followers where
  total : Nat
  deriving DecidableEq, Repr

/-- The fields read from the body of `getMe`. -/
structure User where
  display_name : Option String
  email : Option String
  followers : Followers
  images : List Image
  deriving DecidableEq, Repr

/-- An `external_urls` object. -/
structure ExternalUrls where
  spotify : String
  deriving DecidableEq, Repr

/-- An artist as it appears inside a track. -/
structure TrackArtist where
  id : String
  name : String
  external_urls : ExternalUrls
  deriving DecidableEq, Repr

/-- The album of a track. -/
structure Album where
  name : String
  images : List Image
  external_urls : ExternalUrls
  deriving DecidableEq, Repr

/-- A track object, an item of the body of `getMyTopTracks`. -/
structure Track where
  id : String
  name : String
  artists : List TrackArtist
  album : Album
  preview_url : Option String
  external_urls : ExternalUrls
  duration_ms : Nat
  popularity : Nat
  explicit : Bool
  deriving DecidableEq, Repr

/-- An upstream item the program forwards without looking inside, kept as its JSON text. -/
abbrev Raw := String

/-- The options object passed to `getMyTopTracks`. -/
structure TopOptions where
  time_range : QVal
  limit : JsNum
  deriving DecidableEq, Repr

/-- The methods of the `spotify-web-api-node` client the program calls.  The network methods
give the outcome of the awaited promise for the client as it is when the call is made;
`createAuthorizeURL` is a pure function of the client configuration, the scopes and the
state string. -/
structure Api where
  clientCredentialsGrant : ApiClient → Except JsError ClientGrant
  authorizationCodeGrant : ApiClient → QVal → Except JsError CodeGrant
  getMe : ApiClient → Except JsError User
  getMyTopArtists : ApiClient → Except JsError (List Raw)
  getMyTopTracks : ApiClient → Option TopOptions → Except JsError (List Track)
  searchArtists : ApiClient → QVal → Except JsError (List Raw)
  searchTracks : ApiClient → QVal → Except JsError (List Raw)
  createAuthorizeURL : ClientConfig → List String → String → String

/-- One upstream network call, with its arguments. -/
inductive Call where
  | clientCredentialsGrant
  | authorizationCodeGrant (code : QVal)
  | getMe
  | getMyTopArtists
  | getMyTopTracks (options : Option TopOptions)
  | searchArtists (q : QVal)
  | searchTracks (q : QVal)
  deriving DecidableEq, Repr

/-! ## Requests and responses -/

/-- The parsed query object of a request. -/
abbrev Query := List (String × QVal)

/-- An incoming request: the parsed query, the headers and the body. -/
structure Request where
  query : Query
  headers : List (String × String)
  body : String
  deriving DecidableEq, Repr

/-- The expression `req.headers[name]`; header names are in lower case. -/
def Request.header (req : Request) (name : String) : Option String := req.headers.lookup name

/-- The expression `req.query.<name>`. -/
def Request.param (req : Request) (name : String) : Option QVal := req.query.lookup name

/-- The object `profileData` of `/profile`; `image` is `null` when `none`. -/
structure ProfileData where
  name : Option String
  email : Option String
  followers : Nat
  image : Option String
  topArtists : List Raw
  topTracks : List Track
  deriving DecidableEq, Repr

/-- An artist in the flattened view of `/my-top-tracks`. -/
structure ArtistView where
  id : String
  name : String
  url : String
  deriving DecidableEq, Repr

/-- The album summary in the flattened view; `image` is undefined when `none`. -/
structure AlbumView where
  name : String
  image : Option String
  url : String
  deriving DecidableEq, Repr

/-- A track in the flattened view of `/my-top-tracks`. -/
structure TrackView where
  id : String
  name : String
  artists : List ArtistView
  album : AlbumView
  preview_url : Option String
  spotify_url : String
  duration_ms : Nat
  popularity : Nat
  explicit : Bool
  deriving DecidableEq, Repr

/-- The value handed to `res.json`.  An `Option` field that is `none` is `undefined`, which
serialisation leaves out of the object; a Number is written as `JsNum.toJSON` tells. -/
inductive JsonBody where
  | profile (data : ProfileData)
  | items (items : List Raw)
  | topTracks (success : Bool) (time_range : QVal) (limit : JsNum) (tracks : List TrackView)
  | failure (success : Bool) (error : String) (details : Option String)
  deriving DecidableEq, Repr

/-- The response to a request: `res.status(n).send(text)`, `res.status(n).json(body)`
(status 200 without `status`), `res.redirect(url)` (status 302), or none at all: the `async`
handler threw `thrown` outside any `try`, its promise rejects, Express 4 does not handle the
rejection, and nothing is sent. -/
inductive Response where
  | send (status : Nat) (text : String)
  | json (status : Nat) (body : JsonBody)
  | redirect (status : Nat) (location : String)
  | noResponse (thrown : JsError)
  deriving DecidableEq, Repr

/-- The HTTP status of a response; 0 when none was sent. -/
def Response.status : Response → Nat
  | Response.send n _ => n
  | Response.json n _ => n
  | Response.redirect n _ => n
  | Response.noResponse _ => 0

/-- Whether a response is a redirect. -/
def Response.isRedirect : Response → Bool
  | Response.redirect _ _ => true
  | _ => false

/-- A line written to the console: `console.log(text)` or `console.error(text, err)`. -/
inductive LogLine where
  | info (text : String)
  | error (text : String) (err : JsError)
  deriving DecidableEq, Repr

/-- What running a route handler did: the shared client afterwards, the upstream calls in
the order issued, the console output, and the response sent. -/
structure Outcome where
  client : ApiClient
  calls : List Call
  logs : List LogLine
  response : Response
  deriving DecidableEq, Repr

/-- What running `initSpotifyToken` did; `thrown` is the error its promise rejects with,
`none` when it resolves. -/
structure InitOutcome where
  client : ApiClient
  calls : List Call
  logs : List LogLine
  thrown : Option JsError
  deriving DecidableEq, Repr

/-- The variables of `process.env` the handlers read. -/
structure Env where
  URI : Option String
  deriving DecidableEq, Repr

/-! ## The token job and the route handlers -/

/-- The guard `if (!v) return ...`: `present v` is `some x` exactly when `v` is the truthy
value `x`, that is when the guard lets the handler go on. -/
def present (v : Option QVal) : Option QVal := if truthy v then v else none

/-- The function `initSpotifyToken`: one client-credentials grant inside `try`; on success the
access token of the body is stored, on failure the error is logged. -/
def initSpotifyToken (api : Api) (c : ApiClient) : InitOutcome :=
  match api.clientCredentialsGrant c with
  | Except.ok data =>
    { client := c.setAccessToken (QVal.str data.access_token)
      calls := [Call.clientCredentialsGrant]
      logs := [LogLine.info "✅ Spotify Access Token gesetzt"]
      thrown := none }
  | Except.error err =>
    { client := c
      calls := [Call.clientCredentialsGrant]
      logs := [LogLine.error "❌ Fehler beim Abrufen des Tokens:" err]
      thrown := none }

/-- The constant `scopes`. -/
def scopes : List String :=
  ["user-read-private", "user-read-email", "user-library-read", "user-top-read"]

/-- The handler of `GET /login`. -/
def login (api : Api) (_req : Request) (c : ApiClient) : Outcome :=
  { client := c
    calls := []
    logs := []
    response := Response.redirect 302 (api.createAuthorizeURL c.config scopes "some-state") }

/-- The handler of `GET /spotify-redirect`. -/
def spotifyRedirect (env : Env) (api : Api) (req : Request) (c : ApiClient) : Outcome :=
  match present (req.param "code") with
  | none =>
    { client := c, calls := [], logs := [], response := Response.send 400 "Kein Code erhalten." }
  | some code =>
    match api.authorizationCodeGrant c code with
    | Except.ok data =>
      { client := (c.setAccessToken (QVal.str data.access_token)).setRefreshToken
          (QVal.str data.refresh_token)
        calls := [Call.authorizationCodeGrant code]
        logs := []
        response := Response.redirect 302
          (templateString env.URI ++ "/index.html?access_token=" ++ data.access_token) }
    | Except.error err =>
      { client := c
        calls := [Call.authorizationCodeGrant code]
        logs := [LogLine.error "❌ Fehler bei Auth:" err]
        response := Response.send 400 "Spotify Auth fehlgeschlagen" }

/-- The expression `user.images.length > 0 ? user.images[0].url : null`. -/
def firstImage (user : User) : Option String :=
  match user.images with
  | [] => none
  | image :: _ => some image.url

/-- The answer of the `catch` block of `/profile`. -/
def profileFailure (c : ApiClient) (calls : List Call) (err : JsError) : Outcome :=
  { client := c
    calls := calls
    logs := [LogLine.error "Fehler beim Abrufen der Profildaten:" err]
    response := Response.send 500 "Fehler beim Abrufen der Profildaten" }

/-- The handler of `GET /profile`. -/
def profile (api : Api) (req : Request) (c : ApiClient) : Outcome :=
  match present (req.param "access_token") with
  | none =>
    { client := c, calls := [], logs := []
      response := Response.send 400 "Kein Access Token erhalten" }
  | some accessToken =>
    let c1 := c.setAccessToken accessToken
    match api.getMe c1 with
    | Except.error err => profileFailure c1 [Call.getMe] err
    | Except.ok user =>
      match api.getMyTopArtists c1 with
      | Except.error err => profileFailure c1 [Call.getMe, Call.getMyTopArtists] err
      | Except.ok topArtists =>
        match api.getMyTopTracks c1 none with
        | Except.error err =>
          profileFailure c1 [Call.getMe, Call.getMyTopArtists, Call.getMyTopTracks none] err
        | Except.ok topTracks =>
          { client := c1
            calls := [Call.getMe, Call.getMyTopArtists, Call.getMyTopTracks none]
            logs := []
            response := Response.json 200 (JsonBody.profile
              { name := user.display_name
                email := user.email
                followers := user.followers.total
                image := firstImage user
                topArtists := topArtists
                topTracks := topTracks }) }

/-- The answer of both search handlers when the token or the search text is missing. -/
def searchRejected (c : ApiClient) : Outcome :=
  { client := c, calls := [], logs := []
    response := Response.send 400 "Kein Access Token oder keine Suchanfrage erhalten." }

/-- The handler of `GET /search`. -/
def search (api : Api) (req : Request) (c : ApiClient) : Outcome :=
  match present (req.param "access_token"), present (req.param "q") with
  | some accessToken, some query =>
    let c1 := c.setAccessToken accessToken
    match api.searchArtists c1 query with
    | Except.ok items =>
      { client := c1, calls := [Call.searchArtists query], logs := []
        response := Response.json 200 (JsonBody.items items) }
    | Except.error err =>
      { client := c1, calls := [Call.searchArtists query]
        logs := [LogLine.error "Fehler bei der Suche:" err]
        response := Response.send 500 "Fehler bei der Suche nach Künstlern." }
  | _, _ => searchRejected c

/-- The handler of `GET /search/songs`. -/
def searchSongs (api : Api) (req : Request) (c : ApiClient) : Outcome :=
  match present (req.param "access_token"), present (req.param "q") with
  | some accessToken, some query =>
    let c1 := c.setAccessToken accessToken
    match api.searchTracks c1 query with
    | Except.ok items =>
      { client := c1, calls := [Call.searchTracks query], logs := []
        response := Response.json 200 (JsonBody.items items) }
    | Except.error err =>
      { client := c1, calls := [Call.searchTracks query]
        logs := [LogLine.error "Fehler bei der Song-Suche:" err]
        response := Response.send 500 "Fehler bei der Suche nach Songs." }
  | _, _ => searchRejected c

/-- The callback of `track.artists.map` in `/my-top-tracks`. -/
def artistView (artist : TrackArtist) : ArtistView :=
  { id := artist.id, name := artist.name, url := artist.external_urls.spotify }

/-- The callback of `body.items.map` in `/my-top-tracks`. -/
def trackView (track : Track) : TrackView :=
  { id := track.id
    name := track.name
    artists := track.artists.map artistView
    album :=
      { name := track.album.name
        image := track.album.images.head?.map Image.url
        url := track.album.external_urls.spotify }
    preview_url := track.preview_url
    spotify_url := track.external_urls.spotify
    duration_ms := track.duration_ms
    popularity := track.popularity
    explicit := track.explicit }

/-- The expression `req.query.time_range || 'medium_term'`. -/
def timeRangeOf (req : Request) : QVal :=
  match present (req.param "time_range") with
  | some v => v
  | none => QVal.str "medium_term"

/-- The expression `parseInt(req.query.limit) || 20`. -/
def limitOf (req : Request) : Except JsError JsNum :=
  match parseInt (req.param "limit") with
  | Except.ok n => Except.ok (n.orElse (JsNum.fin 20))
  | Except.error err => Except.error err

/-- The handler of `GET /my-top-tracks`.  The three `const` lines come first, ahead of the
guard on the token and of the `try` block: when the second of them throws, nothing else
runs. -/
def myTopTracks (api : Api) (req : Request) (c : ApiClient) : Outcome :=
  let timeRange := timeRangeOf req
  match limitOf req with
  | Except.error err =>
    { client := c, calls := [], logs := [], response := Response.noResponse err }
  | Except.ok limit =>
    match present (req.param "access_token") with
    | none =>
      { client := c, calls := [], logs := []
        response := Response.json 400 (JsonBody.failure false "Access Token fehlt" none) }
    | some accessToken =>
      let c1 := c.setAccessToken accessToken
      let options : TopOptions := { time_range := timeRange, limit := limit }
      match api.getMyTopTracks c1 (some options) with
      | Except.ok items =>
        { client := c1
          calls := [Call.getMyTopTracks (some options)]
          logs := []
          response := Response.json 200
            (JsonBody.topTracks true timeRange limit (items.map trackView)) }
      | Except.error err =>
        { client := c1
          calls := [Call.getMyTopTracks (some options)]
          logs := [LogLine.error "Spotify API Fehler:" err]
          response := Response.json 500 (JsonBody.failure false err.message err.stack) }

/-! ## The server as a whole -/

/-- The routes registered on `app`. -/
inductive Route where
  | login
  | spotifyRedirect
  | profile
  | search
  | searchSongs
  | myTopTracks
  deriving DecidableEq, Repr

/-- The path a route is registered under. -/
def Route.path : Route → String
  | Route.login => "/login"
  | Route.spotifyRedirect => "/spotify-redirect"
  | Route.profile => "/profile"
  | Route.search => "/search"
  | Route.searchSongs => "/search/songs"
  | Route.myTopTracks => "/my-top-tracks"

/-- The handler Express runs for a request to a route, once the middleware has passed the
request on. -/
def handle (env : Env) (api : Api) : Route → Request → ApiClient → Outcome
  | Route.login => login api
  | Route.spotifyRedirect => spotifyRedirect env api
  | Route.profile => profile api
  | Route.search => search api
  | Route.searchSongs => searchSongs api
  | Route.myTopTracks => myTopTracks api

/-- The middleware registered with `app.use` ahead of the routes: `some answer` when one of
them ends the request with `answer` (the error page of a body parser, a file of `public`),
`none` when every one calls `next()` and the request reaches the route.  None of them
touches the shared client or calls the upstream. -/
abbrev Middleware := Route → Request → Option Response

/-- The application as a whole on a request to a route: the middleware first, and the
handler of the route for what the middleware lets through. -/
def serve (mw : Middleware) (env : Env) (api : Api) (route : Route) (req : Request)
    (c : ApiClient) : Outcome :=
  match mw route req with
  | some answer => { client := c, calls := [], logs := [], response := answer }
  | none => handle env api route req c

/-- Something the process does to the shared client: a run of `initSpotifyToken` (at start-up
or from the 50-minute timer) or the handling of one request by its route (a request the
middleware answers leaves the client as it is). -/
inductive Event where
  | refresh
  | request (route : Route) (req : Request)
  deriving DecidableEq, Repr

/-- The shared client after one event. -/
def step (env : Env) (api : Api) (c : ApiClient) : Event → ApiClient
  | Event.refresh => (initSpotifyToken api c).client
  | Event.request route req => (handle env api route req c).client

/-- The states of the shared client the process can be in: the freshly constructed client,
and whatever any event leads to, the upstream answering each time as it will. -/
inductive Reachable (cfg : ClientConfig) : ApiClient → Prop where
  | start : Reachable cfg (newClient cfg)
  | next (env : Env) (api : Api) (c : ApiClient) (e : Event) :
      Reachable cfg c → Reachable cfg (step env api c e)

/-! ## The words of the specification -/

/-- Whether a text has a decimal digit at its front. -/
def headIsDigit : List Char → Bool
  | [] => false
  | c :: _ => c.isDigit

/-- A text "starts with an integer" when, after any leading white space and at most one
sign, a decimal digit follows: the white space and the sign are what `parseInt` accepts in
front of a numeral. -/
def startsWithInteger (text : String) : Bool :=
  match text.data.dropWhile isWhiteSpace with
  | '+' :: rest => headIsDigit rest
  | '-' :: rest => headIsDigit rest
  | cs => headIsDigit cs

/-- The code points of the characters `parseInt` skips in front of a numeral: tab, line
feed, vertical tab, form feed, carriage return, space, no-break space, the other Unicode
space separators, line and paragraph separator, and the byte order mark. -/
def blankCodes : List Nat :=
  [9, 10, 11, 12, 13, 32, 160, 5760, 8192, 8193, 8194, 8195, 8196, 8197, 8198, 8199, 8200,
    8201, 8202, 8232, 8233, 8239, 8287, 12288, 65279]

/-- Whether a character is one of `0`-`9`, `a`-`f`, `A`-`F`. -/
def isHexDigit (c : Char) : Bool :=
  (48 ≤ c.toNat ∧ c.toNat ≤ 57) ∨ (97 ≤ c.toNat ∧ c.toNat ≤ 102) ∨
    (65 ≤ c.toNat ∧ c.toNat ≤ 70)

/-- The hexadecimal form of a natural number, in lower or in upper case. -/
def hexForm (upper : Bool) (n : Nat) : List Char :=
  if upper then (Nat.toDigits 16 n).map Char.toUpper else Nat.toDigits 16 n

/-- The integer with magnitude `n` and the given sign. -/
def signed (negative : Bool) (n : Nat) : Int := if negative then -(n : Int) else (n : Int)

/-! ## Sample inputs -/

/-- A client configuration as a deployment would set it. -/
def demoConfig : ClientConfig :=
  { clientId := some "client-1", clientSecret := some "secret-1",
    redirectUri := some "https://localhost:3000/spotify-redirect" }

/-- An environment with the front-end address set. -/
def demoEnv : Env := { URI := some "https://localhost:3000" }

/-- The first character of a body that is not a blank of the JSON grammar. -/
def firstNonBlank (body : String) : Option Char :=
  (body.data.dropWhile (fun ch => ch = ' ' ∨ ch = '\t' ∨ ch = '\n' ∨ ch = '\r')).head?

/-- A sample of what the middleware does.  As `express.json()` in strict mode, it ends a
request that announces a JSON body (a `content-type` of `application/json` and a
`content-length`) whose first non-blank character is neither a brace nor a bracket with the
status 400; every other request it passes on. -/
def strictJsonGuard : Middleware := fun _ req =>
  if req.header "content-type" = some "application/json" ∧
      (req.header "content-length").isSome ∧ req.body ≠ "" then
    match firstNonBlank req.body with
    | some '\x7b' => none
    | some '[' => none
    | _ => some (Response.send 400 "Bad Request")
  else none

/-- A request with the given query whose body announces JSON and holds the text `hello`. -/
def helloRequest (q : Query) : Request :=
  { query := q
    headers := [("content-type", "application/json"), ("content-length", "5")]
    body := "hello" }

/-- The error an upstream call rejects with when the token is not accepted. -/
def unauthorized : JsError :=
  { message := "Unauthorized", stack := some "WebapiError: Unauthorized" }

/-- An authorization address put together from the client id, the scopes and the state. -/
def demoAuthorizeURL (cfg : ClientConfig) (scopeList : List String) (state : String) : String :=
  "https://accounts.spotify.com/authorize?client_id=" ++ templateString cfg.clientId ++
    "&scope=" ++ " ".intercalate scopeList ++ "&state=" ++ state

/-- An upstream that rejects every network call with `err`. -/
def rejectingApi (err : JsError) : Api :=
  { clientCredentialsGrant := fun _ => Except.error err
    authorizationCodeGrant := fun _ _ => Except.error err
    getMe := fun _ => Except.error err
    getMyTopArtists := fun _ => Except.error err
    getMyTopTracks := fun _ _ => Except.error err
    searchArtists := fun _ _ => Except.error err
    searchTracks := fun _ _ => Except.error err
    createAuthorizeURL := demoAuthorizeURL }

/-- A track whose id is the decimal form of `i`. -/
def demoTrack (i : Nat) : Track :=
  { id := toString i, name := "song", artists := [], preview_url := none,
    album := { name := "album", images := [], external_urls := { spotify := "a" } },
    external_urls := { spotify := "t" }, duration_ms := 1000, popularity := 50,
    explicit := false }

/-- A user without profile images. -/
def demoUser : User :=
  { display_name := some "Ada", email := some "ada@example.org",
    followers := { total := 7 }, images := [] }

/-- An upstream that grants tokens `A` and `R` for any code and token `T` to the client
itself, knows `demoUser`, and answers a top-tracks query with `count` tracks whatever limit
was asked for. -/
def grantingApi (count : Nat) : Api :=
  { clientCredentialsGrant := fun _ => Except.ok { access_token := "T" }
    authorizationCodeGrant := fun _ _ => Except.ok { access_token := "A", refresh_token := "R" }
    getMe := fun _ => Except.ok demoUser
    getMyTopArtists := fun _ => Except.ok ["artist-1"]
    getMyTopTracks := fun _ _ => Except.ok ((List.range count).map demoTrack)
    searchArtists := fun _ _ => Except.ok []
    searchTracks := fun _ _ => Except.ok []
    createAuthorizeURL := demoAuthorizeURL }

/-- A request with the given query and nothing else. -/
def queryRequest (q : Query) : Request := { query := q, headers := [], body := "" }

/-- The shared client after a user logged in through `/spotify-redirect` on a fresh server
whose upstream is `grantingApi 3`. -/
def afterLogin : ApiClient :=
  step demoEnv (grantingApi 3) (newClient demoConfig)
    (Event.request Route.spotifyRedirect (queryRequest [("code", QVal.str "xyz")]))

/-! ## `parseInt` on numerals -/

theorem digitChar_facts (d : Nat) (hd : d < 16) :
    isWhiteSpace (Nat.digitChar d) = false ∧ digitValue (Nat.digitChar d) = some d ∧
      digitValue (Nat.digitChar d).toUpper = some d ∧
      Nat.digitChar d ≠ '-' ∧ Nat.digitChar d ≠ '+' ∧ Nat.digitChar d ≠ 'x' ∧
      Nat.digitChar d ≠ 'X' ∧ (Nat.digitChar d = '0' → d = 0) := by
  interval_cases d <;> decide

theorem digitsValue_append (radix : Nat) (xs ys : List Nat) :
    digitsValue radix (xs ++ ys) = digitsValue radix xs * radix ^ ys.length +
      digitsValue radix ys := by
  induction ys using List.reverseRecOn generalizing xs with
  | nil => simp [digitsValue]
  | append_singleton ys y ih =>
    have h₁ : digitsValue radix (xs ++ (ys ++ [y])) =
        digitsValue radix (xs ++ ys) * radix + y := by
      unfold digitsValue
      rw [← List.append_assoc, List.foldl_append]
      rfl
    have h₂ : digitsValue radix (ys ++ [y]) = digitsValue radix ys * radix + y := by
      unfold digitsValue
      rw [List.foldl_append]
      rfl
    rw [h₁, h₂, ih]
    simp [pow_succ]
    ring

theorem digitsValue_zeros (radix k : Nat) : digitsValue radix (List.replicate k 0) = 0 := by
  induction k with
  | zero => rfl
  | succ k ih =>
    rw [List.replicate_succ', digitsValue_append, ih]
    simp [digitsValue]

theorem toDigitsCore_spec (b : Nat) (hb : 1 < b) : ∀ (fuel n : Nat) (acc : List Char),
    n < fuel → ∃ ds : List Nat, Nat.toDigitsCore b fuel n acc = ds.map Nat.digitChar ++ acc ∧
      ds ≠ [] ∧ (∀ d ∈ ds, d < b) ∧ digitsValue b ds = n := by
  intro fuel
  induction fuel with
  | zero => intro n acc h; omega
  | succ fuel ih =>
    intro n acc h
    have hmod : n % b < b := Nat.mod_lt _ (by omega)
    by_cases h0 : n / b = 0
    · refine ⟨[n % b], ?_, by simp, ?_, ?_⟩
      · simp [Nat.toDigitsCore, h0]
      · intro d hd
        simp at hd
        omega
      · have := Nat.div_add_mod n b
        rw [h0] at this
        simp [digitsValue]
        omega
    · have hlt : n / b < n := Nat.div_lt_self (by
        rcases Nat.eq_zero_or_pos n with h | h
        · simp [h] at h0
        · exact h) hb
      obtain ⟨ds, h₁, _, h₃, h₄⟩ := ih (n / b) (Nat.digitChar (n % b) :: acc) (by omega)
      refine ⟨ds ++ [n % b], ?_, by simp, ?_, ?_⟩
      · simp [Nat.toDigitsCore, h0, h₁]
      · intro d hd
        rcases List.mem_append.1 hd with hd | hd
        · exact h₃ d hd
        · simp at hd
          omega
      · rw [digitsValue_append, h₄]
        have := Nat.div_add_mod n b
        simp [digitsValue]
        rw [Nat.mul_comm]
        exact this

theorem toDigits_spec (b : Nat) (hb : 1 < b) (n : Nat) :
    ∃ ds : List Nat, Nat.toDigits b n = ds.map Nat.digitChar ∧
      ds ≠ [] ∧ (∀ d ∈ ds, d < b) ∧ digitsValue b ds = n := by
  obtain ⟨ds, h₁, h₂, h₃, h₄⟩ := toDigitsCore_spec b hb (n + 1) n [] (by omega)
  exact ⟨ds, by simpa [Nat.toDigits] using h₁, h₂, h₃, h₄⟩

theorem toString_data (n : Nat) : (toString n).data = Nat.toDigits 10 n := by
  show (Nat.repr n).data = _
  simp [Nat.repr, List.asString]

theorem dropWhile_blanks (ws tail : List Char) (hws : ∀ c ∈ ws, isWhiteSpace c = true)
    (htail : ∀ c, tail.head? = some c → isWhiteSpace c = false) :
    (ws ++ tail).dropWhile isWhiteSpace = tail := by
  induction ws with
  | nil =>
    cases tail with
    | nil => rfl
    | cons c t => simp [List.dropWhile, htail c rfl]
  | cons w ws ih =>
    have hw : isWhiteSpace w = true := hws w (List.mem_cons_self _ _)
    simp only [List.cons_append, List.dropWhile, hw]
    exact ih (fun c hc => hws c (List.mem_cons_of_mem _ hc))

theorem splitRadix_plain (body : List Char)
    (h : ∀ t, body ≠ '0' :: 'x' :: t ∧ body ≠ '0' :: 'X' :: t) :
    splitRadix body = (10, body) := by
  unfold splitRadix
  split
  · exact absurd rfl (h _).1
  · exact absurd rfl (h _).2
  · rfl

/-- The digits read from a run of digit characters followed by something that is not a digit
of the radix. -/
theorem takeDigits_run (radix : Nat) (cs : List Char) (vs : List Nat) (rest : List Char)
    (hcs : cs.map digitValue = vs.map some) (hvs : ∀ v ∈ vs, v < radix)
    (hrest : ∀ c d, rest.head? = some c → digitValue c = some d → radix ≤ d) :
    takeDigits radix (cs ++ rest) = vs := by
  induction cs generalizing vs with
  | nil =>
    cases vs with
    | cons v vs => simp at hcs
    | nil =>
      cases rest with
      | nil => rfl
      | cons c t =>
        simp only [List.nil_append, takeDigits]
        cases hd : digitValue c with
        | none => rfl
        | some d =>
          have := hrest c d rfl hd
          simp
          omega
  | cons c cs ih =>
    cases vs with
    | nil => simp at hcs
    | cons v vs =>
      simp only [List.map_cons, List.cons.injEq] at hcs
      have hv : v < radix := hvs v (List.mem_cons_self _ _)
      have htail := ih vs hcs.2 (fun x hx => hvs x (List.mem_cons_of_mem _ hx))
      simp only [List.cons_append, takeDigits, hcs.1, hv, if_true]
      exact congrArg (List.cons v) htail

/-- A sign in front of a numeral, and whether it is a minus. -/
theorem splitSign_sign (sign body : List Char) (negative : Bool)
    (hsign : (sign = [] ∧ negative = false) ∨ (sign = ['+'] ∧ negative = false) ∨
      (sign = ['-'] ∧ negative = true))
    (hbody : ∀ c, body.head? = some c → c ≠ '-' ∧ c ≠ '+') :
    splitSign (sign ++ body) = (negative, body) := by
  rcases hsign with ⟨h, hn⟩ | ⟨h, hn⟩ | ⟨h, hn⟩ <;> subst h <;> subst hn
  · cases body with
    | nil => rfl
    | cons c t =>
      have := hbody c rfl
      simp only [List.nil_append]
      unfold splitSign
      split <;> first | rfl | simp_all
  · rfl
  · rfl

theorem sign_head_not_blank (sign body : List Char) (negative : Bool)
    (hsign : (sign = [] ∧ negative = false) ∨ (sign = ['+'] ∧ negative = false) ∨
      (sign = ['-'] ∧ negative = true))
    (hbody : ∀ c, body.head? = some c → isWhiteSpace c = false) :
    ∀ c, (sign ++ body).head? = some c → isWhiteSpace c = false := by
  rcases hsign with ⟨h, _⟩ | ⟨h, _⟩ | ⟨h, _⟩ <;> subst h
  · simpa using hbody
  · intro c hc
    simp at hc
    subst hc
    decide
  · intro c hc
    simp at hc
    subst hc
    decide

/-- The shape `parseInt` reads: blanks, a sign, then a body that starts with neither. -/
theorem parseIntChars_signed (ws sign body : List Char) (negative : Bool)
    (hws : ∀ c ∈ ws, isWhiteSpace c = true)
    (hsign : (sign = [] ∧ negative = false) ∨ (sign = ['+'] ∧ negative = false) ∨
      (sign = ['-'] ∧ negative = true))
    (hbody : ∀ c, body.head? = some c → isWhiteSpace c = false ∧ c ≠ '-' ∧ c ≠ '+') :
    parseIntChars (ws ++ sign ++ body) =
      if takeDigits (splitRadix body).1 (splitRadix body).2 = [] then JsNum.nan
      else toNumber negative
        (digitsValue (splitRadix body).1 (takeDigits (splitRadix body).1 (splitRadix body).2)) := by
  unfold parseIntChars
  rw [List.append_assoc, dropWhile_blanks ws (sign ++ body) hws
    (sign_head_not_blank sign body negative hsign (fun c hc => (hbody c hc).1)),
    splitSign_sign sign body negative hsign (fun c hc => (hbody c hc).2)]

theorem digitValue_cases (c : Char) (d : Nat) (h : digitValue c = some d) :
    (c.isDigit = true ∧ 48 ≤ c.toNat ∧ c.toNat ≤ 57 ∧ d = c.toNat - 48) ∨
    (c.isDigit = false ∧ 97 ≤ c.toNat ∧ c.toNat ≤ 122 ∧ d = c.toNat - 97 + 10) ∨
    (c.isDigit = false ∧ 65 ≤ c.toNat ∧ c.toNat ≤ 90 ∧ d = c.toNat - 65 + 10) := by
  unfold digitValue at h
  by_cases h₁ : c.isDigit = true
  · rw [if_pos h₁] at h
    have hr := h₁
    simp only [Char.isDigit, Bool.and_eq_true, decide_eq_true_eq, ge_iff_le, UInt32.le_def,
      Fin.le_def] at hr
    left
    refine ⟨h₁, hr.1, hr.2, ?_⟩
    simpa using (Option.some.inj h).symm
  · rw [if_neg h₁] at h
    have h₁' : c.isDigit = false := by simpa using h₁
    by_cases h₂ : c.isLower = true
    · rw [if_pos h₂] at h
      have hr := h₂
      simp only [Char.isLower, Bool.and_eq_true, decide_eq_true_eq, ge_iff_le, UInt32.le_def,
        Fin.le_def] at hr
      right; left
      refine ⟨h₁', hr.1, hr.2, ?_⟩
      simpa using (Option.some.inj h).symm
    · rw [if_neg h₂] at h
      by_cases h₃ : c.isUpper = true
      · rw [if_pos h₃] at h
        have hr := h₃
        simp only [Char.isUpper, Bool.and_eq_true, decide_eq_true_eq, ge_iff_le, UInt32.le_def,
          Fin.le_def] at hr
        right; right
        refine ⟨h₁', hr.1, hr.2, ?_⟩
        simpa using (Option.some.inj h).symm
      · rw [if_neg h₃] at h
        exact absurd h (by simp)

theorem not_decimal_digit (c : Char) (d : Nat) (hc : c.isDigit = false)
    (h : digitValue c = some d) : 10 ≤ d := by
  rcases digitValue_cases c d h with ⟨h₁, _⟩ | ⟨_, _, _, hd⟩ | ⟨_, _, _, hd⟩
  · rw [hc] at h₁
    exact absurd h₁ (by simp)
  · omega
  · omega

theorem not_hex_digit (c : Char) (d : Nat) (hc : isHexDigit c = false)
    (h : digitValue c = some d) : 16 ≤ d := by
  simp only [isHexDigit, decide_eq_false_iff_not, not_or, not_and, not_le] at hc
  rcases digitValue_cases c d h with ⟨_, h₁, h₂, _⟩ | ⟨_, h₁, _, hd⟩ | ⟨_, h₁, _, hd⟩
  · have := hc.1 h₁
    omega
  · have := hc.2.1 h₁
    omega
  · have := hc.2.2 h₁
    omega

theorem headIsDigit_rest (rest : List Char) (h : headIsDigit rest = false) :
    ∀ c d, rest.head? = some c → digitValue c = some d → 10 ≤ d := by
  intro c d hc hd
  cases rest with
  | nil => simp at hc
  | cons r t =>
    simp at hc
    subst hc
    exact not_decimal_digit r d h hd

theorem digitChars_values (radix : Nat) (hr : radix ≤ 16) (ds : List Nat)
    (h : ∀ d ∈ ds, d < radix) :
    (ds.map Nat.digitChar).map digitValue = ds.map some ∧
      ((ds.map Nat.digitChar).map Char.toUpper).map digitValue = ds.map some := by
  induction ds with
  | nil => exact ⟨rfl, rfl⟩
  | cons d t ih =>
    have hd : d < 16 := by
      have := h d (List.mem_cons_self _ _)
      omega
    have ht := ih (fun x hx => h x (List.mem_cons_of_mem _ hx))
    have hf := digitChar_facts d hd
    constructor
    · simp only [List.map_cons, hf.2.1, ht.1]
    · simp only [List.map_cons, hf.2.2.1, ht.2]

theorem zeros_map (k : Nat) :
    List.replicate k '0' = (List.replicate k 0).map Nat.digitChar ∧
      List.replicate k '0' = ((List.replicate k 0).map Nat.digitChar).map Char.toUpper := by
  induction k with
  | zero => exact ⟨rfl, rfl⟩
  | succ k ih =>
    constructor
    · rw [List.replicate_succ, List.replicate_succ, List.map_cons, ← ih.1]
      rfl
    · rw [List.replicate_succ, List.replicate_succ, List.map_cons, List.map_cons, ← ih.2]
      rfl

/-- On blanks, a sign, a decimal numeral with any number of leading zeros and a rest that
does not go on with a digit, `parseInt` gives the Number value of the signed numeral.  The
numeral must not be the lone `0` of a `0x` prefix. -/
theorem parseIntChars_decimal (ws sign rest : List Char) (negative : Bool) (k n : Nat)
    (hws : ∀ c ∈ ws, isWhiteSpace c = true)
    (hsign : (sign = [] ∧ negative = false) ∨ (sign = ['+'] ∧ negative = false) ∨
      (sign = ['-'] ∧ negative = true))
    (hrest : headIsDigit rest = false)
    (hhex : k = 0 → n = 0 → rest.head? ≠ some 'x' ∧ rest.head? ≠ some 'X') :
    parseIntChars (ws ++ sign ++ (List.replicate k '0' ++ (toString n).data ++ rest)) =
      toNumber negative n := by
  obtain ⟨ds, h₁, h₂, h₃, h₄⟩ := toDigits_spec 10 (by decide) n
  have hD : List.replicate k '0' ++ (toString n).data =
      (List.replicate k 0 ++ ds).map Nat.digitChar := by
    rw [toString_data, h₁, List.map_append, ← (zeros_map k).1]
  have hlt : ∀ d ∈ List.replicate k 0 ++ ds, d < 10 := by
    intro d hd
    rcases List.mem_append.1 hd with hd | hd
    · rw [List.eq_of_mem_replicate hd]
      decide
    · exact h₃ d hd
  have hne : List.replicate k 0 ++ ds ≠ [] := by simp [h₂]
  have hval : digitsValue 10 (List.replicate k 0 ++ ds) = n := by
    rw [digitsValue_append, digitsValue_zeros, h₄]
    simp
  rw [hD]
  generalize hDdef : List.replicate k 0 ++ ds = D at hlt hne hval
  have hsingle : D = [0] → k = 0 ∧ n = 0 := by
    intro hD0
    rw [hD0] at hval
    have hlen := congrArg List.length hDdef
    rw [hD0] at hlen
    simp at hlen
    have hdslen : 0 < ds.length := List.length_pos.2 h₂
    refine ⟨by omega, ?_⟩
    simpa [digitsValue] using hval.symm
  have hbody : ∀ c, (D.map Nat.digitChar ++ rest).head? = some c →
      isWhiteSpace c = false ∧ c ≠ '-' ∧ c ≠ '+' := by
    intro c hc
    cases D with
    | nil => exact absurd rfl hne
    | cons d t =>
      simp at hc
      subst hc
      have hf := digitChar_facts d (by have := hlt d (List.mem_cons_self _ _); omega)
      exact ⟨hf.1, hf.2.2.2.1, hf.2.2.2.2.1⟩
  have hplain : splitRadix (D.map Nat.digitChar ++ rest) = (10, D.map Nat.digitChar ++ rest) := by
    apply splitRadix_plain
    intro t
    cases D with
    | nil => exact absurd rfl hne
    | cons d D' =>
      have hf := digitChar_facts d (by have := hlt d (List.mem_cons_self _ _); omega)
      cases D' with
      | nil =>
        constructor
        · intro hcontra
          simp at hcontra
          have hd0 := hf.2.2.2.2.2.2.2 hcontra.1
          subst hd0
          obtain ⟨hk, hn⟩ := hsingle rfl
          have := (hhex hk hn).1
          rw [hcontra.2] at this
          simp at this
        · intro hcontra
          simp at hcontra
          have hd0 := hf.2.2.2.2.2.2.2 hcontra.1
          subst hd0
          obtain ⟨hk, hn⟩ := hsingle rfl
          have := (hhex hk hn).2
          rw [hcontra.2] at this
          simp at this
      | cons e D'' =>
        have he := digitChar_facts e (by
          have := hlt e (List.mem_cons_of_mem _ (List.mem_cons_self _ _)); omega)
        constructor
        · intro hcontra
          simp at hcontra
          exact he.2.2.2.2.2.1 hcontra.2.1
        · intro hcontra
          simp at hcontra
          exact he.2.2.2.2.2.2.1 hcontra.2.1
  have htake : takeDigits 10 (D.map Nat.digitChar ++ rest) = D :=
    takeDigits_run 10 _ D rest (digitChars_values 10 (by decide) D hlt).1 hlt
      (headIsDigit_rest rest hrest)
  rw [parseIntChars_signed ws sign _ negative hws hsign hbody, hplain]
  simp only [htake, hval, hne, if_false]

theorem hexForm_spec (upper : Bool) (k n : Nat) :
    ∃ D : List Nat, D ≠ [] ∧ (∀ d ∈ D, d < 16) ∧ digitsValue 16 D = n ∧
      (List.replicate k '0' ++ hexForm upper n).map digitValue = D.map some := by
  obtain ⟨ds, h₁, h₂, h₃, h₄⟩ := toDigits_spec 16 (by decide) n
  have hlt : ∀ d ∈ List.replicate k 0 ++ ds, d < 16 := by
    intro d hd
    rcases List.mem_append.1 hd with hd | hd
    · rw [List.eq_of_mem_replicate hd]
      decide
    · exact h₃ d hd
  refine ⟨List.replicate k 0 ++ ds, by simp [h₂], hlt, ?_, ?_⟩
  · rw [digitsValue_append, digitsValue_zeros, h₄]
    simp
  · have hv := digitChars_values 16 (by decide) (List.replicate k 0 ++ ds) hlt
    cases upper with
    | false =>
      have : List.replicate k '0' ++ hexForm false n =
          (List.replicate k 0 ++ ds).map Nat.digitChar := by
        simp only [hexForm, h₁, List.map_append, ← (zeros_map k).1]
        rfl
      rw [this, hv.1]
    | true =>
      have : List.replicate k '0' ++ hexForm true n =
          ((List.replicate k 0 ++ ds).map Nat.digitChar).map Char.toUpper := by
        simp only [hexForm, h₁, List.map_append, ← (zeros_map k).2]
        rfl
      rw [this, hv.2]

/-- On blanks, a sign, `0x` or `0X`, a hexadecimal numeral in lower or upper case with any
number of leading zeros and a rest that does not go on with a hexadecimal digit, `parseInt`
gives the Number value of the signed numeral. -/
theorem parseIntChars_hex (ws sign rest : List Char) (negative upper : Bool) (x : Char)
    (k n : Nat)
    (hws : ∀ c ∈ ws, isWhiteSpace c = true)
    (hsign : (sign = [] ∧ negative = false) ∨ (sign = ['+'] ∧ negative = false) ∨
      (sign = ['-'] ∧ negative = true))
    (hx : x = 'x' ∨ x = 'X')
    (hrest : ∀ c, rest.head? = some c → isHexDigit c = false) :
    parseIntChars (ws ++ sign ++ ('0' :: x :: (List.replicate k '0' ++ hexForm upper n ++ rest))) =
      toNumber negative n := by
  obtain ⟨D, hne, hlt, hval, hmap⟩ := hexForm_spec upper k n
  have hbody : ∀ c, ('0' :: x :: (List.replicate k '0' ++ hexForm upper n ++ rest)).head? =
      some c → isWhiteSpace c = false ∧ c ≠ '-' ∧ c ≠ '+' := by
    intro c hc
    simp at hc
    subst hc
    decide
  have hsplit : splitRadix ('0' :: x :: (List.replicate k '0' ++ hexForm upper n ++ rest)) =
      (16, List.replicate k '0' ++ hexForm upper n ++ rest) := by
    rcases hx with hx | hx <;> subst hx <;> rfl
  have htake : takeDigits 16 (List.replicate k '0' ++ hexForm upper n ++ rest) = D :=
    takeDigits_run 16 _ D rest hmap hlt
      (fun c d hc hd => not_hex_digit c d (hrest c hc) hd)
  rw [parseIntChars_signed ws sign _ negative hws hsign hbody, hsplit]
  simp only [htake, hval, hne, if_false]

/-- On blanks, a sign and `0x` or `0X` with no hexadecimal digit behind, `parseInt` gives
`NaN`. -/
theorem parseIntChars_hex_empty (ws sign rest : List Char) (negative : Bool) (x : Char)
    (hws : ∀ c ∈ ws, isWhiteSpace c = true)
    (hsign : (sign = [] ∧ negative = false) ∨ (sign = ['+'] ∧ negative = false) ∨
      (sign = ['-'] ∧ negative = true))
    (hx : x = 'x' ∨ x = 'X')
    (hrest : ∀ c, rest.head? = some c → isHexDigit c = false) :
    parseIntChars (ws ++ sign ++ ('0' :: x :: rest)) = JsNum.nan := by
  have hbody : ∀ c, ('0' :: x :: rest).head? = some c →
      isWhiteSpace c = false ∧ c ≠ '-' ∧ c ≠ '+' := by
    intro c hc
    simp at hc
    subst hc
    decide
  have hsplit : splitRadix ('0' :: x :: rest) = (16, rest) := by
    rcases hx with hx | hx <;> subst hx <;> rfl
  have htake : takeDigits 16 ([] ++ rest) = [] :=
    takeDigits_run 16 [] [] rest rfl (by simp)
      (fun c d hc hd => not_hex_digit c d (hrest c hc) hd)
  rw [parseIntChars_signed ws sign _ negative hws hsign hbody, hsplit]
  simp only [List.nil_append] at htake
  simp only [htake, if_true]

/-! ## `parseInt` on texts without a numeral -/

theorem takeDigits_of_not_digit (c : Char) (t : List Char) (h : c.isDigit = false) :
    takeDigits 10 (c :: t) = [] := by
  unfold takeDigits digitValue
  rw [if_neg (by simp [h])]
  by_cases hl : c.isLower = true
  · rw [if_pos hl]
    simp
  · rw [if_neg hl]
    by_cases hu : c.isUpper = true
    · rw [if_pos hu]
      simp
    · rw [if_neg hu]

theorem no_numeral_of_headIsDigit (cs : List Char) (h : headIsDigit cs = false) :
    takeDigits (splitRadix cs).1 (splitRadix cs).2 = [] := by
  cases cs with
  | nil => rfl
  | cons c t =>
    have hc : c.isDigit = false := h
    have h0 : c ≠ '0' := by
      intro h0
      rw [h0] at hc
      exact absurd hc (by decide)
    have hsplit : splitRadix (c :: t) = (10, c :: t) := by
      unfold splitRadix
      split <;> first | rfl | simp_all
    rw [hsplit]
    exact takeDigits_of_not_digit c t hc

theorem parseIntChars_nan_of_no_numeral (cs : List Char)
    (h : headIsDigit (splitSign (cs.dropWhile isWhiteSpace)).2 = false) :
    parseIntChars cs = JsNum.nan := by
  unfold parseIntChars
  simp only [no_numeral_of_headIsDigit _ h, if_true]

theorem startsWithInteger_eq (text : String) :
    startsWithInteger text = headIsDigit (splitSign (text.data.dropWhile isWhiteSpace)).2 := by
  unfold startsWithInteger
  generalize text.data.dropWhile isWhiteSpace = cs
  unfold splitSign
  split <;> first | rfl | (split <;> simp_all)

/-- A text that does not start with an integer parses to `NaN`. -/
theorem parseIntChars_nan_of_not_startsWithInteger (text : String)
    (h : startsWithInteger text = false) : parseIntChars text.data = JsNum.nan := by
  rw [startsWithInteger_eq] at h
  exact parseIntChars_nan_of_no_numeral _ h

theorem isWhiteSpace_iff (c : Char) : isWhiteSpace c = true ↔ c.toNat ∈ blankCodes := by
  unfold isWhiteSpace blankCodes
  exact decide_eq_true_iff

/-! ## The limit of a request -/

theorem limitOf_of_text (req : Request) (text : String)
    (h : jsToString (req.param "limit") = Except.ok text) :
    limitOf req = Except.ok ((parseIntChars text.data).orElse (JsNum.fin 20)) := by
  simp [limitOf, parseInt, h]

theorem roundToDouble_small (n : Nat) (h : n < 2 ^ 53) : roundToDouble n = some n := by
  unfold roundToDouble
  rw [if_pos h]

theorem orElse_toNumber (negative : Bool) (n : Nat) (hpos : 0 < n)
    (hdouble : roundToDouble n = some n) :
    (toNumber negative n).orElse (JsNum.fin 20) = JsNum.fin (signed negative n) := by
  have hne : (n : Int) ≠ 0 := by omega
  cases negative <;> simp [toNumber, hdouble, JsNum.orElse, JsNum.truthy, signed, hne]

theorem orElse_zero (negative : Bool) :
    (toNumber negative 0).orElse (JsNum.fin 20) = JsNum.fin 20 := by
  cases negative <;> rfl

/-- The limit of a request whose `limit` is the decimal form of a positive double `n`. -/
theorem limitOf_decimal (req : Request) (n : Nat) (hpos : 0 < n)
    (hdouble : roundToDouble n = some n)
    (hlimit : req.param "limit" = some (QVal.str (toString n))) :
    limitOf req = Except.ok (JsNum.fin n) := by
  have htext : jsToString (req.param "limit") = Except.ok (toString n) := by
    rw [hlimit]
    rfl
  have hparse := parseIntChars_decimal [] [] [] false 0 n (by simp) (Or.inl ⟨rfl, rfl⟩) rfl
    (by simp)
  simp only [List.nil_append, List.append_nil, List.replicate_zero] at hparse
  rw [limitOf_of_text req _ htext, hparse, orElse_toNumber false n hpos hdouble]
  simp [signed]

theorem limitOf_absent (req : Request) (h : req.param "limit" = none) :
    limitOf req = Except.ok (JsNum.fin 20) := by
  have htext : jsToString (req.param "limit") = Except.ok "undefined" := by
    rw [h]
    rfl
  rw [limitOf_of_text req _ htext]
  rfl

theorem timeRangeOf_default (req : Request)
    (h : req.param "time_range" = none ∨ req.param "time_range" = some (QVal.str "")) :
    timeRangeOf req = QVal.str "medium_term" := by
  have hp : present (req.param "time_range") = none := by
    rcases h with h | h <;> rw [h] <;> rfl
  simp [timeRangeOf, hp]

theorem timeRangeOf_given (req : Request) (v : QVal) (h : req.param "time_range" = some v)
    (hne : v ≠ QVal.str "") : timeRangeOf req = v := by
  have htruthy : truthy (some v) = true := by
    cases v with
    | str s =>
      have hs : s ≠ "" := fun hs => hne (by rw [hs])
      simp [truthy, hs]
    | arr items => rfl
    | obj fields => rfl
  simp [timeRangeOf, present, h, htruthy]

theorem myTopTracks_calls (api : Api) (req : Request) (c : ApiClient) (token : QVal)
    (lim : JsNum)
    (htoken : present (req.param "access_token") = some token)
    (hlim : limitOf req = Except.ok lim) :
    (myTopTracks api req c).calls =
      [Call.getMyTopTracks (some { time_range := timeRangeOf req, limit := lim })] := by
  simp only [myTopTracks, htoken, hlim]
  cases api.getMyTopTracks (c.setAccessToken token)
    (some { time_range := timeRangeOf req, limit := lim }) <;> rfl

theorem myTopTracks_success (api : Api) (req : Request) (c : ApiClient) (token : QVal)
    (lim : JsNum) (items : List Track)
    (htoken : present (req.param "access_token") = some token)
    (hlim : limitOf req = Except.ok lim)
    (h : api.getMyTopTracks (c.setAccessToken token)
      (some { time_range := timeRangeOf req, limit := lim }) = Except.ok items) :
    (myTopTracks api req c).response = Response.json 200
      (JsonBody.topTracks true (timeRangeOf req) lim (items.map trackView)) := by
  simp [myTopTracks, htoken, hlim, h]

theorem serve_passed (mw : Middleware) (env : Env) (api : Api) (route : Route)
    (req : Request) (c : ApiClient) (h : mw route req = none) :
    serve mw env api route req c = handle env api route req c := by
  simp [serve, h]

theorem present_none_of_missing (v : Option QVal) (h : v = none ∨ v = some (QVal.str "")) :
    present v = none := by
  rcases h with h | h <;> subst h <;> rfl

/-! ## Missing tokens and codes -/

/-- Without an `access_token`, or with an empty one, the handlers of `/profile`, `/search`,
`/search/songs` and `/my-top-tracks` answer 400 and call nothing upstream, as long as the
request reaches the handler and, on `/my-top-tracks`, the `limit` parameter can be
converted to a string. -/
theorem missing_token_rejected (mw : Middleware) (env : Env) (api : Api) (route : Route)
    (req : Request) (c : ApiClient)
    (hmw : mw route req = none)
    (hroute : route = Route.profile ∨ route = Route.search ∨ route = Route.searchSongs ∨
      route = Route.myTopTracks)
    (htoken : req.param "access_token" = none ∨
      req.param "access_token" = some (QVal.str ""))
    (hlimit : route = Route.myTopTracks →
      ∃ text, jsToString (req.param "limit") = Except.ok text) :
    (serve mw env api route req c).response.status = 400 ∧
      (serve mw env api route req c).calls = [] := by
  have hp := present_none_of_missing _ htoken
  rw [serve_passed mw env api route req c hmw]
  rcases hroute with h | h | h | h <;> subst h
  · simp [handle, profile, hp, Response.status]
  · simp [handle, search, searchRejected, hp, Response.status]
  · simp [handle, searchSongs, searchRejected, hp, Response.status]
  · obtain ⟨text, htext⟩ := hlimit rfl
    simp [handle, myTopTracks, limitOf_of_text req text htext, hp, Response.status]

/-- C1 fails on `/my-top-tracks`: for the query `limit[toString]=5` without an
`access_token`, which the middleware passes on, `parseInt(req.query.limit)` throws ahead of
the guard on the token and outside the `try` block, so the handler sends no response at
all, not the 400 that the handler of `/profile` sends for the same query. -/
theorem missing_token_unanswered :
    (queryRequest [("limit", QVal.obj [("toString", QVal.str "5")])]).param "access_token" =
        none ∧
      strictJsonGuard Route.myTopTracks
        (queryRequest [("limit", QVal.obj [("toString", QVal.str "5")])]) = none ∧
      (serve strictJsonGuard demoEnv (grantingApi 3) Route.myTopTracks
        (queryRequest [("limit", QVal.obj [("toString", QVal.str "5")])])
        (newClient demoConfig)).response = Response.noResponse typeError ∧
      (serve strictJsonGuard demoEnv (grantingApi 3) Route.myTopTracks
        (queryRequest [("limit", QVal.obj [("toString", QVal.str "5")])])
        (newClient demoConfig)).response.status ≠ 400 ∧
      (serve strictJsonGuard demoEnv (grantingApi 3) Route.profile
        (queryRequest [("limit", QVal.obj [("toString", QVal.str "5")])])
        (newClient demoConfig)).response.status = 400 := by
  refine ⟨by decide, by decide, by decide, by decide, by decide⟩

/-! ## The authorization-code exchange -/

/-- C4: when `/spotify-redirect` gets a non-empty code and the authorization-code grant
succeeds with access token `A` and refresh token `R`, the shared client afterwards holds
`A` and `R`, and the response redirects to the configured front-end address followed by
`/index.html?access_token=A`. -/
theorem redirect_stores_tokens (env : Env) (api : Api) (req : Request) (c : ApiClient)
    (code : QVal) (A R uri : String)
    (hcode : present (req.param "code") = some code)
    (huri : env.URI = some uri)
    (hgrant : api.authorizationCodeGrant c code =
      Except.ok { access_token := A, refresh_token := R }) :
    (spotifyRedirect env api req c).client.accessToken = some (QVal.str A) ∧
      (spotifyRedirect env api req c).client.refreshToken = some (QVal.str R) ∧
      (spotifyRedirect env api req c).response =
        Response.redirect 302 (uri ++ "/index.html?access_token=" ++ A) := by
  simp [spotifyRedirect, hcode, hgrant, huri, ApiClient.setAccessToken,
    ApiClient.setRefreshToken, templateString]

theorem redirect_stores_tokens_witness :
    (spotifyRedirect demoEnv (grantingApi 3) (queryRequest [("code", QVal.str "xyz")])
        (newClient demoConfig)).client.accessToken = some (QVal.str "A") ∧
      (spotifyRedirect demoEnv (grantingApi 3) (queryRequest [("code", QVal.str "xyz")])
        (newClient demoConfig)).client.refreshToken = some (QVal.str "R") ∧
      (spotifyRedirect demoEnv (grantingApi 3) (queryRequest [("code", QVal.str "xyz")])
        (newClient demoConfig)).response =
        Response.redirect 302
          ("https://localhost:3000" ++ "/index.html?access_token=" ++ "A") :=
  redirect_stores_tokens demoEnv (grantingApi 3) (queryRequest [("code", QVal.str "xyz")])
    (newClient demoConfig) (QVal.str "xyz") "A" "R" "https://localhost:3000"
    (by decide) rfl rfl

/-- C5: `/spotify-redirect` without a code answers 400 and attempts no grant; when the grant
is attempted and fails it answers 400 and the grant was attempted exactly once; either way
no redirect is sent and the shared client, tokens included, is left as it was. -/
theorem redirect_failure_keeps_state (env : Env) (api : Api) (req : Request) (c : ApiClient) :
    (present (req.param "code") = none →
      (spotifyRedirect env api req c).response.status = 400 ∧
      (spotifyRedirect env api req c).calls = [] ∧
      (spotifyRedirect env api req c).response.isRedirect = false ∧
      (spotifyRedirect env api req c).client = c) ∧
    (∀ code err, present (req.param "code") = some code →
      api.authorizationCodeGrant c code = Except.error err →
      (spotifyRedirect env api req c).response.status = 400 ∧
      (spotifyRedirect env api req c).calls = [Call.authorizationCodeGrant code] ∧
      (spotifyRedirect env api req c).response.isRedirect = false ∧
      (spotifyRedirect env api req c).client = c) := by
  constructor
  · intro h
    simp [spotifyRedirect, h, Response.status, Response.isRedirect]
  · intro code err h hg
    simp [spotifyRedirect, h, hg, Response.status, Response.isRedirect]

theorem redirect_failure_keeps_state_witness :
    ((spotifyRedirect demoEnv (rejectingApi unauthorized) (queryRequest [])
        (newClient demoConfig)).response.status = 400 ∧
      (spotifyRedirect demoEnv (rejectingApi unauthorized) (queryRequest [])
        (newClient demoConfig)).calls = [] ∧
      (spotifyRedirect demoEnv (rejectingApi unauthorized) (queryRequest [])
        (newClient demoConfig)).response.isRedirect = false ∧
      (spotifyRedirect demoEnv (rejectingApi unauthorized) (queryRequest [])
        (newClient demoConfig)).client = newClient demoConfig) ∧
    ((spotifyRedirect demoEnv (rejectingApi unauthorized)
        (queryRequest [("code", QVal.str "xyz")]) (newClient demoConfig)).response.status = 400 ∧
      (spotifyRedirect demoEnv (rejectingApi unauthorized)
        (queryRequest [("code", QVal.str "xyz")]) (newClient demoConfig)).calls =
        [Call.authorizationCodeGrant (QVal.str "xyz")] ∧
      (spotifyRedirect demoEnv (rejectingApi unauthorized)
        (queryRequest [("code", QVal.str "xyz")])
        (newClient demoConfig)).response.isRedirect = false ∧
      (spotifyRedirect demoEnv (rejectingApi unauthorized)
        (queryRequest [("code", QVal.str "xyz")]) (newClient demoConfig)).client =
        newClient demoConfig) :=
  ⟨(redirect_failure_keeps_state demoEnv (rejectingApi unauthorized) (queryRequest [])
      (newClient demoConfig)).1 (by decide),
   (redirect_failure_keeps_state demoEnv (rejectingApi unauthorized)
      (queryRequest [("code", QVal.str "xyz")]) (newClient demoConfig)).2
      (QVal.str "xyz") unauthorized (by decide) rfl⟩

/-! ## The token state -/

/-- C7: whatever the shared client holds, `initSpotifyToken` stores the access token `T` of a
successful client-credentials grant; when the grant fails it leaves the client, access and
refresh token included, exactly as it was; and in neither case does it throw. -/
theorem initSpotifyToken_frame (api : Api) (c : ApiClient) :
    (∀ T, api.clientCredentialsGrant c = Except.ok { access_token := T } →
      (initSpotifyToken api c).client.accessToken = some (QVal.str T)) ∧
    (∀ err, api.clientCredentialsGrant c = Except.error err →
      (initSpotifyToken api c).client = c) ∧
    (initSpotifyToken api c).thrown = none := by
  refine ⟨?_, ?_, ?_⟩
  · intro T h
    simp [initSpotifyToken, h, ApiClient.setAccessToken]
  · intro err h
    simp [initSpotifyToken, h]
  · unfold initSpotifyToken
    cases api.clientCredentialsGrant c <;> rfl

theorem initSpotifyToken_frame_witness :
    (initSpotifyToken (grantingApi 3) (newClient demoConfig)).client.accessToken =
        some (QVal.str "T") ∧
      (initSpotifyToken (rejectingApi unauthorized) (newClient demoConfig)).client =
        newClient demoConfig :=
  ⟨(initSpotifyToken_frame (grantingApi 3) (newClient demoConfig)).1 "T" rfl,
   (initSpotifyToken_frame (rejectingApi unauthorized) (newClient demoConfig)).2.1
      unauthorized rfl⟩

/-- C6, as the code has it: a successful authorization-code exchange replaces both token
fields with the tokens of that grant, whatever they were; a successful run of
`initSpotifyToken` replaces the access token with the granted one and leaves the refresh
token as it was.  Neither touches the client configuration. -/
theorem token_writes (env : Env) (api : Api) (req : Request) (c : ApiClient) :
    (∀ code A R, present (req.param "code") = some code →
      api.authorizationCodeGrant c code =
        Except.ok { access_token := A, refresh_token := R } →
      (spotifyRedirect env api req c).client =
        { config := c.config, accessToken := some (QVal.str A),
          refreshToken := some (QVal.str R) }) ∧
    (∀ T, api.clientCredentialsGrant c = Except.ok { access_token := T } →
      (initSpotifyToken api c).client =
        { config := c.config, accessToken := some (QVal.str T),
          refreshToken := c.refreshToken }) := by
  constructor
  · intro code A R h hg
    simp [spotifyRedirect, h, hg, ApiClient.setAccessToken, ApiClient.setRefreshToken]
  · intro T h
    simp [initSpotifyToken, h, ApiClient.setAccessToken]

theorem token_writes_witness :
    (spotifyRedirect demoEnv (grantingApi 3) (queryRequest [("code", QVal.str "xyz")])
        (newClient demoConfig)).client =
        { config := (newClient demoConfig).config, accessToken := some (QVal.str "A"),
          refreshToken := some (QVal.str "R") } ∧
      (initSpotifyToken (grantingApi 3) (newClient demoConfig)).client =
        { config := (newClient demoConfig).config, accessToken := some (QVal.str "T"),
          refreshToken := (newClient demoConfig).refreshToken } :=
  ⟨(token_writes demoEnv (grantingApi 3) (queryRequest [("code", QVal.str "xyz")])
      (newClient demoConfig)).1 (QVal.str "xyz") "A" "R" (by decide) rfl,
   (token_writes demoEnv (grantingApi 3) (queryRequest [])
      (newClient demoConfig)).2 "T" rfl⟩

/-- C6 as stated fails: the client that `/spotify-redirect` left holding tokens `A` and `R`
is reachable, and after a successful run of `initSpotifyToken` on it the refresh token is
still `R`, the value of the previous token state, next to the new access token `T`. -/
theorem refresh_token_survives :
    Reachable demoConfig afterLogin ∧
      afterLogin.accessToken = some (QVal.str "A") ∧
      afterLogin.refreshToken = some (QVal.str "R") ∧
      (grantingApi 3).clientCredentialsGrant afterLogin = Except.ok { access_token := "T" } ∧
      (initSpotifyToken (grantingApi 3) afterLogin).client.accessToken =
        some (QVal.str "T") ∧
      (initSpotifyToken (grantingApi 3) afterLogin).client.refreshToken =
        afterLogin.refreshToken := by
  refine ⟨?_, by decide, by decide, rfl, by decide, by decide⟩
  exact Reachable.next demoEnv (grantingApi 3) (newClient demoConfig)
    (Event.request Route.spotifyRedirect (queryRequest [("code", QVal.str "xyz")]))
    Reachable.start

/-! ## The login redirect -/

/-- C8, as the code has it: for every request to `/login` that the middleware passes on to
the handler, whatever its query, headers and body, the response is a 302 redirect to the
authorization address built from the fixed scope list and the state `some-state`; two such
requests served with the same client configuration get the same target. -/
theorem login_fixed_target (mw : Middleware) (env : Env) (api : Api) (req₁ req₂ : Request)
    (c₁ c₂ : ApiClient)
    (hcfg : c₁.config = c₂.config)
    (hpass₁ : mw Route.login req₁ = none)
    (hpass₂ : mw Route.login req₂ = none) :
    (serve mw env api Route.login req₁ c₁).response =
        Response.redirect 302 (api.createAuthorizeURL c₁.config
          ["user-read-private", "user-read-email", "user-library-read", "user-top-read"]
          "some-state") ∧
      (serve mw env api Route.login req₁ c₁).response =
        (serve mw env api Route.login req₂ c₂).response := by
  rw [serve_passed mw env api Route.login req₁ c₁ hpass₁,
    serve_passed mw env api Route.login req₂ c₂ hpass₂]
  simp [handle, login, scopes, hcfg]

theorem login_fixed_target_witness :
    (serve strictJsonGuard demoEnv (grantingApi 3) Route.login
        (queryRequest [("x", QVal.str "1")]) (newClient demoConfig)).response =
        Response.redirect 302 ((grantingApi 3).createAuthorizeURL (newClient demoConfig).config
          ["user-read-private", "user-read-email", "user-library-read", "user-top-read"]
          "some-state") ∧
      (serve strictJsonGuard demoEnv (grantingApi 3) Route.login
        (queryRequest [("x", QVal.str "1")]) (newClient demoConfig)).response =
      (serve strictJsonGuard demoEnv (grantingApi 3) Route.login
        { query := [], headers := [("cookie", "k=v")], body := "hello" }
        ((newClient demoConfig).setAccessToken (QVal.str "old"))).response :=
  login_fixed_target strictJsonGuard demoEnv (grantingApi 3) (queryRequest [("x", QVal.str "1")])
    { query := [], headers := [("cookie", "k=v")], body := "hello" }
    (newClient demoConfig) ((newClient demoConfig).setAccessToken (QVal.str "old")) rfl
    (by decide) (by decide)

/-- C8 as stated fails: a request to `/login` that announces a JSON body and carries the
text `hello` is ended by the JSON body parser with status 400 ahead of the handler, so it
gets no redirect, while a request without a body, served with the same client
configuration, is redirected. -/
theorem login_blocked_before_handler :
    (serve strictJsonGuard demoEnv (grantingApi 3) Route.login (helloRequest [])
        (newClient demoConfig)).response.status = 400 ∧
      (serve strictJsonGuard demoEnv (grantingApi 3) Route.login (helloRequest [])
        (newClient demoConfig)).response.isRedirect = false ∧
      (serve strictJsonGuard demoEnv (grantingApi 3) Route.login (queryRequest [])
        (newClient demoConfig)).response.isRedirect = true ∧
      (serve strictJsonGuard demoEnv (grantingApi 3) Route.login (helloRequest [])
        (newClient demoConfig)).response ≠
      (serve strictJsonGuard demoEnv (grantingApi 3) Route.login (queryRequest [])
        (newClient demoConfig)).response := by
  refine ⟨by decide, by decide, by decide, by decide⟩

/-! ## The profile route -/

/-- C9, as the code has it: for a request that the middleware passes on to the handler and
that carries an access token, `/profile` calls `getMe`, then `getMyTopArtists`, then
`getMyTopTracks`, each only once the one before has succeeded.  When all three succeed the
response is the profile object (name, email, follower count, the address of the first
profile image or `null` without images, and the items of the second and third call); when
one fails the response is a plain 500, no later call is issued and no profile is sent. -/
theorem profile_sequence (mw : Middleware) (env : Env) (api : Api) (req : Request)
    (c : ApiClient) (token : QVal)
    (hpass : mw Route.profile req = none)
    (htoken : present (req.param "access_token") = some token) :
    (∀ err, api.getMe (c.setAccessToken token) = Except.error err →
      (serve mw env api Route.profile req c).calls = [Call.getMe] ∧
      (serve mw env api Route.profile req c).response = Response.send 500 "Fehler beim Abrufen der Profildaten") ∧
    (∀ user err, api.getMe (c.setAccessToken token) = Except.ok user →
      api.getMyTopArtists (c.setAccessToken token) = Except.error err →
      (serve mw env api Route.profile req c).calls = [Call.getMe, Call.getMyTopArtists] ∧
      (serve mw env api Route.profile req c).response = Response.send 500 "Fehler beim Abrufen der Profildaten") ∧
    (∀ user artists err, api.getMe (c.setAccessToken token) = Except.ok user →
      api.getMyTopArtists (c.setAccessToken token) = Except.ok artists →
      api.getMyTopTracks (c.setAccessToken token) none = Except.error err →
      (serve mw env api Route.profile req c).calls =
        [Call.getMe, Call.getMyTopArtists, Call.getMyTopTracks none] ∧
      (serve mw env api Route.profile req c).response = Response.send 500 "Fehler beim Abrufen der Profildaten") ∧
    (∀ user artists tracks, api.getMe (c.setAccessToken token) = Except.ok user →
      api.getMyTopArtists (c.setAccessToken token) = Except.ok artists →
      api.getMyTopTracks (c.setAccessToken token) none = Except.ok tracks →
      (serve mw env api Route.profile req c).calls =
        [Call.getMe, Call.getMyTopArtists, Call.getMyTopTracks none] ∧
      (serve mw env api Route.profile req c).response = Response.json 200 (JsonBody.profile
        { name := user.display_name
          email := user.email
          followers := user.followers.total
          image := (user.images.head?).map Image.url
          topArtists := artists
          topTracks := tracks })) := by
  rw [serve_passed mw env api Route.profile req c hpass]
  refine ⟨?_, ?_, ?_, ?_⟩
  · intro err h
    simp [handle, profile, htoken, h, profileFailure]
  · intro user err h₁ h₂
    simp [handle, profile, htoken, h₁, h₂, profileFailure]
  · intro user artists err h₁ h₂ h₃
    simp [handle, profile, htoken, h₁, h₂, h₃, profileFailure]
  · intro user artists tracks h₁ h₂ h₃
    have himg : firstImage user = (user.images.head?).map Image.url := by
      unfold firstImage
      cases user.images <;> rfl
    simp [handle, profile, htoken, h₁, h₂, h₃, himg]

theorem profile_sequence_witness :
    ((serve strictJsonGuard demoEnv (rejectingApi unauthorized) Route.profile
        (queryRequest [("access_token", QVal.str "tok")])
        (newClient demoConfig)).calls = [Call.getMe] ∧
      (serve strictJsonGuard demoEnv (rejectingApi unauthorized) Route.profile
        (queryRequest [("access_token", QVal.str "tok")])
        (newClient demoConfig)).response =
        Response.send 500 "Fehler beim Abrufen der Profildaten") ∧
    ((serve strictJsonGuard demoEnv (grantingApi 2) Route.profile
        (queryRequest [("access_token", QVal.str "tok")])
        (newClient demoConfig)).calls =
        [Call.getMe, Call.getMyTopArtists, Call.getMyTopTracks none] ∧
      (serve strictJsonGuard demoEnv (grantingApi 2) Route.profile
        (queryRequest [("access_token", QVal.str "tok")])
        (newClient demoConfig)).response = Response.json 200 (JsonBody.profile
        { name := demoUser.display_name
          email := demoUser.email
          followers := demoUser.followers.total
          image := (demoUser.images.head?).map Image.url
          topArtists := ["artist-1"]
          topTracks := (List.range 2).map demoTrack })) :=
  ⟨(profile_sequence strictJsonGuard demoEnv (rejectingApi unauthorized)
      (queryRequest [("access_token", QVal.str "tok")]) (newClient demoConfig)
      (QVal.str "tok") (by decide) (by decide)).1 unauthorized rfl,
   (profile_sequence strictJsonGuard demoEnv (grantingApi 2)
      (queryRequest [("access_token", QVal.str "tok")]) (newClient demoConfig)
      (QVal.str "tok") (by decide) (by decide)).2.2.2 demoUser ["artist-1"]
      ((List.range 2).map demoTrack) rfl rfl rfl⟩

/-- C9 as stated fails: a request to `/profile` that carries an access token, announces a
JSON body and holds the text `hello` is ended by the JSON body parser with status 400 ahead
of the handler: `getMe` is not called, and the response is neither the profile nor a 500. -/
theorem profile_blocked_before_handler :
    present ((helloRequest [("access_token", QVal.str "tok")]).param "access_token") =
        some (QVal.str "tok") ∧
      (grantingApi 2).getMe ((newClient demoConfig).setAccessToken (QVal.str "tok")) =
        Except.ok demoUser ∧
      (serve strictJsonGuard demoEnv (grantingApi 2) Route.profile
        (helloRequest [("access_token", QVal.str "tok")]) (newClient demoConfig)).calls = [] ∧
      (serve strictJsonGuard demoEnv (grantingApi 2) Route.profile
        (helloRequest [("access_token", QVal.str "tok")])
        (newClient demoConfig)).response.status = 400 := by
  refine ⟨by decide, rfl, by decide, by decide⟩

/-! ## The top-tracks route: failures -/

/-- C3, as the code has it: with an access token, when the `getMyTopTracks` call of
`/my-top-tracks` fails with an error whose message is `m`, the response has status 500 and
its body holds `success: false`, `error: m` and, under `details`, the stack trace of the
error (left out only when the error has none). -/
theorem top_tracks_failure (api : Api) (req : Request) (c : ApiClient) (token : QVal)
    (err : JsError) (limit : JsNum)
    (htoken : present (req.param "access_token") = some token)
    (hlimit : limitOf req = Except.ok limit)
    (hfail : api.getMyTopTracks (c.setAccessToken token)
      (some { time_range := timeRangeOf req, limit := limit }) = Except.error err) :
    (myTopTracks api req c).response =
      Response.json 500 (JsonBody.failure false err.message err.stack) := by
  simp [myTopTracks, htoken, hlimit, hfail]

theorem top_tracks_failure_witness :
    (myTopTracks (rejectingApi unauthorized)
        (queryRequest [("access_token", QVal.str "expired")])
        (newClient demoConfig)).response =
      Response.json 500 (JsonBody.failure false unauthorized.message unauthorized.stack) :=
  top_tracks_failure (rejectingApi unauthorized)
    (queryRequest [("access_token", QVal.str "expired")]) (newClient demoConfig)
    (QVal.str "expired") unauthorized (JsNum.fin 20) (by decide) rfl rfl

/-- C3 as stated fails: the upstream rejects an expired token with the error `Unauthorized`,
which carries a stack trace, and the body of the 500 response is not
`{success: false, error: "Unauthorized"}`: it has a third field, `details`, with the trace. -/
theorem failure_body_has_details :
    (rejectingApi unauthorized).getMyTopTracks
        ((newClient demoConfig).setAccessToken (QVal.str "expired"))
        (some { time_range := QVal.str "medium_term", limit := JsNum.fin 20 }) =
        Except.error unauthorized ∧
      unauthorized.message = "Unauthorized" ∧
      (myTopTracks (rejectingApi unauthorized)
        (queryRequest [("access_token", QVal.str "expired")])
        (newClient demoConfig)).response =
        Response.json 500 (JsonBody.failure false "Unauthorized"
          (some "WebapiError: Unauthorized")) ∧
      (myTopTracks (rejectingApi unauthorized)
        (queryRequest [("access_token", QVal.str "expired")])
        (newClient demoConfig)).response ≠
        Response.json 500 (JsonBody.failure false "Unauthorized" none) := by
  refine ⟨rfl, rfl, by decide, by decide⟩

/-! ## The top-tracks route: parameters -/

/-- C10, as the code has it: for a request that the middleware passes on to the handler,
that carries an access token and whose `limit` parameter can be converted to a string,
`/my-top-tracks` issues one `getMyTopTracks` call whose `time_range` and `limit` are the
ones echoed in the success response.  `time_range` is the query's `time_range`, or
`medium_term` when that is absent or empty.  `limit` is 20 when the `limit` parameter is
absent, does not start with an integer, or holds a numeral of value 0; and when the text is
blanks, an optional sign and a numeral (decimal, or hexadecimal behind `0x`, leading zeros
allowed, anything but a further digit behind) of value `n > 0` that is exactly a double,
`limit` is `n` with that sign, a negative value included.  With neither parameter the call
asks for `medium_term` and 20. -/
theorem top_tracks_parameters (mw : Middleware) (env : Env) (api : Api) (req : Request)
    (c : ApiClient) (token : QVal) (text : String)
    (hpass : mw Route.myTopTracks req = none)
    (htoken : present (req.param "access_token") = some token)
    (htext : jsToString (req.param "limit") = Except.ok text) :
    ∃ limit : JsNum,
      limitOf req = Except.ok limit ∧
      (serve mw env api Route.myTopTracks req c).calls =
        [Call.getMyTopTracks (some { time_range := timeRangeOf req, limit := limit })] ∧
      (∀ items, api.getMyTopTracks (c.setAccessToken token)
          (some { time_range := timeRangeOf req, limit := limit }) = Except.ok items →
        (serve mw env api Route.myTopTracks req c).response = Response.json 200
          (JsonBody.topTracks true (timeRangeOf req) limit (items.map trackView))) ∧
      (req.param "time_range" = none ∨ req.param "time_range" = some (QVal.str "") →
        timeRangeOf req = QVal.str "medium_term") ∧
      (∀ v, req.param "time_range" = some v → v ≠ QVal.str "" → timeRangeOf req = v) ∧
      (req.param "limit" = none → limit = JsNum.fin 20) ∧
      (startsWithInteger text = false → limit = JsNum.fin 20) ∧
      (∀ (ws sign rest : List Char) (negative : Bool) (k n : Nat),
        text.data = ws ++ sign ++ (List.replicate k '0' ++ (toString n).data ++ rest) →
        (∀ ch ∈ ws, ch.toNat ∈ blankCodes) →
        ((sign = [] ∧ negative = false) ∨ (sign = ['+'] ∧ negative = false) ∨
          (sign = ['-'] ∧ negative = true)) →
        headIsDigit rest = false →
        (k = 0 → n = 0 → rest.head? ≠ some 'x' ∧ rest.head? ≠ some 'X') →
        (n = 0 → limit = JsNum.fin 20) ∧
        (0 < n → roundToDouble n = some n →
          limit = JsNum.fin (signed negative n) ∧ limit.toJSON = some (signed negative n))) ∧
      (∀ (ws sign rest : List Char) (negative upper : Bool) (x : Char) (k n : Nat),
        text.data =
          ws ++ sign ++ ('0' :: x :: (List.replicate k '0' ++ hexForm upper n ++ rest)) →
        (∀ ch ∈ ws, ch.toNat ∈ blankCodes) →
        ((sign = [] ∧ negative = false) ∨ (sign = ['+'] ∧ negative = false) ∨
          (sign = ['-'] ∧ negative = true)) →
        (x = 'x' ∨ x = 'X') →
        (∀ ch, rest.head? = some ch → isHexDigit ch = false) →
        (n = 0 → limit = JsNum.fin 20) ∧
        (0 < n → roundToDouble n = some n →
          limit = JsNum.fin (signed negative n) ∧ limit.toJSON = some (signed negative n))) ∧
      (∀ (ws sign rest : List Char) (negative : Bool) (x : Char),
        text.data = ws ++ sign ++ ('0' :: x :: rest) →
        (∀ ch ∈ ws, ch.toNat ∈ blankCodes) →
        ((sign = [] ∧ negative = false) ∨ (sign = ['+'] ∧ negative = false) ∨
          (sign = ['-'] ∧ negative = true)) →
        (x = 'x' ∨ x = 'X') →
        (∀ ch, rest.head? = some ch → isHexDigit ch = false) →
        limit = JsNum.fin 20) ∧
      (req.param "time_range" = none → req.param "limit" = none →
        (serve mw env api Route.myTopTracks req c).calls = [Call.getMyTopTracks
          (some { time_range := QVal.str "medium_term", limit := JsNum.fin 20 })]) := by
  have hlim := limitOf_of_text req text htext
  have hcalls : (serve mw env api Route.myTopTracks req c).calls =
      [Call.getMyTopTracks (some
        { time_range := timeRangeOf req
          limit := (parseIntChars text.data).orElse (JsNum.fin 20) })] := by
    rw [serve_passed mw env api Route.myTopTracks req c hpass]
    exact myTopTracks_calls api req c token _ htoken hlim
  have hblank : ∀ ws : List Char, (∀ ch ∈ ws, ch.toNat ∈ blankCodes) →
      ∀ ch ∈ ws, isWhiteSpace ch = true :=
    fun ws h ch hch => (isWhiteSpace_iff ch).2 (h ch hch)
  have hnumeral : ∀ (negative : Bool) (n : Nat),
      parseIntChars text.data = toNumber negative n →
      (n = 0 → (parseIntChars text.data).orElse (JsNum.fin 20) = JsNum.fin 20) ∧
      (0 < n → roundToDouble n = some n →
        (parseIntChars text.data).orElse (JsNum.fin 20) = JsNum.fin (signed negative n) ∧
        ((parseIntChars text.data).orElse (JsNum.fin 20)).toJSON =
          some (signed negative n)) := by
    intro negative n hparse
    rw [hparse]
    constructor
    · intro hn
      rw [hn]
      exact orElse_zero negative
    · intro hpos hdouble
      rw [orElse_toNumber negative n hpos hdouble]
      exact ⟨rfl, rfl⟩
  have habsent : req.param "limit" = none →
      (parseIntChars text.data).orElse (JsNum.fin 20) = JsNum.fin 20 := by
    intro h
    have h₁ := limitOf_absent req h
    rw [hlim] at h₁
    exact Except.ok.inj h₁
  refine ⟨(parseIntChars text.data).orElse (JsNum.fin 20), hlim, hcalls, ?_,
    timeRangeOf_default req, fun v hv hne => timeRangeOf_given req v hv hne, habsent,
    ?_, ?_, ?_, ?_, ?_⟩
  · intro items h
    rw [serve_passed mw env api Route.myTopTracks req c hpass]
    exact myTopTracks_success api req c token _ items htoken hlim h
  · intro h
    rw [parseIntChars_nan_of_not_startsWithInteger text h]
    rfl
  · intro ws sign rest negative k n hshape hws hsign hrest hhex
    apply hnumeral negative n
    rw [hshape]
    exact parseIntChars_decimal ws sign rest negative k n (hblank ws hws) hsign hrest hhex
  · intro ws sign rest negative upper x k n hshape hws hsign hx hrest
    apply hnumeral negative n
    rw [hshape]
    exact parseIntChars_hex ws sign rest negative upper x k n (hblank ws hws) hsign hx hrest
  · intro ws sign rest negative x hshape hws hsign hx hrest
    rw [hshape, parseIntChars_hex_empty ws sign rest negative x (hblank ws hws) hsign hx hrest]
    rfl
  · intro hr hl
    rw [hcalls, timeRangeOf_default req (Or.inl hr), habsent hl]

theorem top_tracks_parameters_witness :
    (serve strictJsonGuard demoEnv (grantingApi 2) Route.myTopTracks
        (queryRequest [("access_token", QVal.str "tok"), ("limit", QVal.str " -007abc")])
        (newClient demoConfig)).calls =
      [Call.getMyTopTracks
        (some { time_range := QVal.str "medium_term", limit := JsNum.fin (-7) })] ∧
    (serve strictJsonGuard demoEnv (grantingApi 2) Route.myTopTracks
        (queryRequest [("access_token", QVal.str "tok"), ("limit", QVal.str " -007abc")])
        (newClient demoConfig)).response = Response.json 200
          (JsonBody.topTracks true (QVal.str "medium_term") (JsNum.fin (-7))
            (((List.range 2).map demoTrack).map trackView)) ∧
    limitOf (queryRequest [("access_token", QVal.str "tok"), ("limit", QVal.str " -007abc")]) =
      Except.ok (JsNum.fin (-7)) := by
  obtain ⟨limit, _, hcalls, hresp, hrange, _, _, _, hdecimal, _⟩ :=
    top_tracks_parameters strictJsonGuard demoEnv (grantingApi 2)
      (queryRequest [("access_token", QVal.str "tok"), ("limit", QVal.str " -007abc")])
      (newClient demoConfig) (QVal.str "tok") " -007abc" (by decide) (by decide) rfl
  have hlimit : limit = JsNum.fin (-7) :=
    ((hdecimal [' '] ['-'] ['a', 'b', 'c'] true 2 7 rfl (by decide) (by decide) rfl
      (by decide)).2 (by decide) (by decide)).1
  have htime := hrange (Or.inl rfl)
  rw [hlimit, htime] at hcalls hresp
  exact ⟨hcalls, hresp _ rfl, rfl⟩

set_option maxRecDepth 100000 in
/-- C10 as stated fails three ways.  The limit `-9007199254740993`, the negative of
`2 ^ 53 + 1`, is not passed through unchanged: the call asks for `-9007199254740992`, the
nearest double (likewise `9007199254740995` is sent as `9007199254740996`).  A limit of 1
followed by 309 zeros goes upstream as `Infinity` and is echoed in the success response as
`null`, not as an integer.  And a request with an access token and `limit=5`
that announces a JSON body holding `hello` is ended by the body parser with status 400:
nothing is sent upstream. -/
theorem limit_not_the_integer :
    ((serve strictJsonGuard demoEnv (grantingApi 2) Route.myTopTracks
        (queryRequest [("access_token", QVal.str "tok"),
          ("limit", QVal.str "-9007199254740993")])
        (newClient demoConfig)).calls =
      [Call.getMyTopTracks (some
        { time_range := QVal.str "medium_term"
          limit := JsNum.fin (-9007199254740992) })] ∧
      "-" ++ toString (2 ^ 53 + 1) = "-9007199254740993" ∧
      JsNum.fin (-9007199254740992) ≠ JsNum.fin (-((2 ^ 53 + 1 : Nat) : Int)) ∧
      (serve strictJsonGuard demoEnv (grantingApi 2) Route.myTopTracks
        (queryRequest [("access_token", QVal.str "tok"),
          ("limit", QVal.str "9007199254740995")])
        (newClient demoConfig)).calls =
      [Call.getMyTopTracks (some
        { time_range := QVal.str "medium_term"
          limit := JsNum.fin 9007199254740996 })]) ∧
    ((serve strictJsonGuard demoEnv (grantingApi 2) Route.myTopTracks
        (queryRequest [("access_token", QVal.str "tok"),
          ("limit", QVal.str (String.mk ('1' :: List.replicate 309 '0')))])
        (newClient demoConfig)).calls =
      [Call.getMyTopTracks (some
        { time_range := QVal.str "medium_term"
          limit := JsNum.inf false })] ∧
      (serve strictJsonGuard demoEnv (grantingApi 2) Route.myTopTracks
        (queryRequest [("access_token", QVal.str "tok"),
          ("limit", QVal.str (String.mk ('1' :: List.replicate 309 '0')))])
        (newClient demoConfig)).response = Response.json 200
          (JsonBody.topTracks true (QVal.str "medium_term") (JsNum.inf false)
            (((List.range 2).map demoTrack).map trackView)) ∧
      (JsNum.inf false).toJSON = none) ∧
    ((serve strictJsonGuard demoEnv (grantingApi 2) Route.myTopTracks
        (helloRequest [("access_token", QVal.str "tok"), ("limit", QVal.str "5")])
        (newClient demoConfig)).calls = [] ∧
      (serve strictJsonGuard demoEnv (grantingApi 2) Route.myTopTracks
        (helloRequest [("access_token", QVal.str "tok"), ("limit", QVal.str "5")])
        (newClient demoConfig)).response.status = 400) := by
  refine ⟨⟨by decide, by decide, by decide, by decide⟩, ⟨by decide, by decide, rfl⟩,
    ⟨by decide, by decide⟩⟩

/-! ## The top-tracks route: the limit -/

/-- C2, as the code has it: with an access token and a `limit` that is the decimal form of a
positive integer `n` that is exactly a double (5 is, as is every integer below `2 ^ 53`),
`/my-top-tracks` issues exactly one upstream call, `getMyTopTracks` with limit `n`; when the
call succeeds the response has `success: true`, limit `n` and one track per upstream item in
the same order, so as many tracks as the upstream returned, which is at most `n` whenever
the upstream returned at most `n` items. -/
theorem top_tracks_limit (api : Api) (req : Request) (c : ApiClient) (token : QVal) (n : Nat)
    (htoken : present (req.param "access_token") = some token)
    (hpos : 0 < n)
    (hdouble : roundToDouble n = some n)
    (hlimit : req.param "limit" = some (QVal.str (toString n))) :
    (myTopTracks api req c).calls =
        [Call.getMyTopTracks (some { time_range := timeRangeOf req, limit := JsNum.fin n })] ∧
    (∀ items, api.getMyTopTracks (c.setAccessToken token)
        (some { time_range := timeRangeOf req, limit := JsNum.fin n }) = Except.ok items →
      (myTopTracks api req c).response = Response.json 200
        (JsonBody.topTracks true (timeRangeOf req) (JsNum.fin n) (items.map trackView)) ∧
      (items.map trackView).map TrackView.id = items.map Track.id ∧
      (items.map trackView).length = items.length ∧
      (items.length ≤ n → (items.map trackView).length ≤ n)) := by
  have hl := limitOf_decimal req n hpos hdouble hlimit
  have hcalls := myTopTracks_calls api req c token _ htoken hl
  refine ⟨hcalls, ?_⟩
  intro items h
  have hok := myTopTracks_success api req c token _ items htoken hl h
  refine ⟨hok, ?_, by simp, by simp⟩
  simp [trackView, Function.comp_def]

theorem top_tracks_limit_witness :
    (myTopTracks (grantingApi 4)
        (queryRequest [("access_token", QVal.str "tok"), ("limit", QVal.str (toString 5))])
        (newClient demoConfig)).calls =
      [Call.getMyTopTracks (some
        { time_range := timeRangeOf
            (queryRequest [("access_token", QVal.str "tok"), ("limit", QVal.str (toString 5))])
          limit := JsNum.fin (5 : Nat) })] ∧
    ((myTopTracks (grantingApi 4)
        (queryRequest [("access_token", QVal.str "tok"), ("limit", QVal.str (toString 5))])
        (newClient demoConfig)).response = Response.json 200
          (JsonBody.topTracks true
            (timeRangeOf (queryRequest
              [("access_token", QVal.str "tok"), ("limit", QVal.str (toString 5))]))
            (JsNum.fin (5 : Nat)) (((List.range 4).map demoTrack).map trackView)) ∧
      (((List.range 4).map demoTrack).map trackView).map TrackView.id =
        ((List.range 4).map demoTrack).map Track.id ∧
      (((List.range 4).map demoTrack).map trackView).length =
        ((List.range 4).map demoTrack).length ∧
      (((List.range 4).map demoTrack).length ≤ 5 →
        (((List.range 4).map demoTrack).map trackView).length ≤ 5)) :=
  ⟨(top_tracks_limit (grantingApi 4)
      (queryRequest [("access_token", QVal.str "tok"), ("limit", QVal.str (toString 5))])
      (newClient demoConfig) (QVal.str "tok") 5 (by decide) (by decide) (by decide) rfl).1,
   (top_tracks_limit (grantingApi 4)
      (queryRequest [("access_token", QVal.str "tok"), ("limit", QVal.str (toString 5))])
      (newClient demoConfig) (QVal.str "tok") 5 (by decide) (by decide) (by decide) rfl).2
      ((List.range 4).map demoTrack) rfl⟩

/-- C2 as stated fails twice.  Asked for `limit=5`, an upstream that answers with six items
gets all six forwarded: the call succeeded with limit 5 and the response carries six tracks.
And the decimal form of the positive integer `2 ^ 53 + 1`, which is not a double, makes the
handler ask the upstream for `2 ^ 53` items, not for `2 ^ 53 + 1`. -/
theorem limit_not_enforced :
    ((myTopTracks (grantingApi 6)
        (queryRequest [("access_token", QVal.str "tok"), ("limit", QVal.str "5")])
        (newClient demoConfig)).calls =
      [Call.getMyTopTracks
        (some { time_range := QVal.str "medium_term", limit := JsNum.fin 5 })] ∧
    (myTopTracks (grantingApi 6)
        (queryRequest [("access_token", QVal.str "tok"), ("limit", QVal.str "5")])
        (newClient demoConfig)).response = Response.json 200
          (JsonBody.topTracks true (QVal.str "medium_term") (JsNum.fin 5)
            (((List.range 6).map demoTrack).map trackView)) ∧
    ¬ (((List.range 6).map demoTrack).map trackView).length ≤ 5) ∧
    ((myTopTracks (grantingApi 6)
        (queryRequest [("access_token", QVal.str "tok"),
          ("limit", QVal.str "9007199254740993")])
        (newClient demoConfig)).calls =
      [Call.getMyTopTracks
        (some { time_range := QVal.str "medium_term",
                limit := JsNum.fin 9007199254740992 })] ∧
      toString (2 ^ 53 + 1) = "9007199254740993" ∧
      JsNum.fin 9007199254740992 ≠ JsNum.fin ((2 ^ 53 + 1 : Nat) : Int)) := by
  refine ⟨⟨by decide, by decide, by decide⟩, by decide, by decide, by decide⟩

end Server
